import Mathlib

/-!
# Identicon (src/script/script.js): a shallow embedding

The class `Identicon` of `src/script/script.js` hashes a text, reads bits and
colours from the hexadecimal digest and draws a grid of shapes on a 2D canvas.

Modelling choices.

* A JavaScript string is a sequence of UTF-16 code units. It is embedded as a
  `List Char`, one `Char` per code unit; the digest strings the program works on
  are ASCII.
* Offsets into the digest are the non-negative integers the program computes
  (`(row * gridSize + col) * 2`, `0`, `6`, `12`, ...): they are `Nat`.
* JavaScript numbers are embedded in a field `α` (exact arithmetic); the
  functions and constants of the global `Math` object that the class uses are a
  parameter (`MathObj α`). The theorems on the geometry of the triangles take
  the real numbers, with `Real.cos`, `Real.sin` and `Real.pi`.
* The canvas context `this.ctx` is an output device: every method that draws
  returns the list of context operations it performs, in order. What the
  operations do to the state of the context (fill style, current path, bitmap)
  is `CanvasOp.exec`.
-/

namespace JS

/-! ## JavaScript strings -/

/-- A JavaScript string: its sequence of code units. -/
abbrev JSString := List Char

/-- Method `String.prototype.substring(start, end)` for non-negative integer arguments:
both are clamped to the length, and swapped when `start > end`. -/
def substring (s : JSString) (start stop : Nat) : JSString :=
  let finalStart := min start s.length
  let finalEnd := min stop s.length
  let lo := min finalStart finalEnd
  let hi := max finalStart finalEnd
  (s.drop lo).take (hi - lo)

/-- Method `String.prototype.slice(start, end)` for non-negative integer arguments:
both are clamped to the length; the result is empty when `end ≤ start`. -/
def slice (s : JSString) (start stop : Nat) : JSString :=
  let lo := min start s.length
  let hi := min stop s.length
  (s.drop lo).take (hi - lo)

/-- The code units that `parseInt` skips at the start of its argument
(ECMAScript `WhiteSpace` and `LineTerminator`). -/
def isStrWhiteSpaceChar (c : Char) : Bool :=
  let n := c.toNat
  n = 0x9 || n = 0xA || n = 0xB || n = 0xC || n = 0xD || n = 0x20 || n = 0xA0 ||
  n = 0x1680 || (0x2000 ≤ n && n ≤ 0x200A) || n = 0x2028 || n = 0x2029 ||
  n = 0x202F || n = 0x205F || n = 0x3000 || n = 0xFEFF

/-- The value of a code unit read as a digit: `0`-`9`, then `a`-`z` or `A`-`Z`
for 10-35. -/
def digitValue (c : Char) : Option Nat :=
  let n := c.toNat
  if 48 ≤ n ∧ n ≤ 57 then some (n - 48)
  else if 97 ≤ n ∧ n ≤ 122 then some (n - 97 + 10)
  else if 65 ≤ n ∧ n ≤ 90 then some (n - 65 + 10)
  else none

/-- Whether a code unit is a digit in radix `R`. -/
def isRadixDigit (R : Nat) (c : Char) : Bool :=
  match digitValue c with
  | some d => decide (d < R)
  | none => false

/-- The integer written by a list of radix-`R` digits. -/
def digitsValue (R : Nat) (ds : List Char) : Nat :=
  ds.foldl (fun acc c => acc * R + (digitValue c).getD 0) 0

/-- The global `parseInt(string, radix)` of ECMAScript, for a radix given as a
non-negative integer: `none` is `NaN`. Leading white space is dropped, then an
optional sign, then (radix 16 or 0) an optional `0x`/`0X`; the longest run of
radix digits that follows is the number. The program only calls it on strings
of at most two code units, whose value is an exact JavaScript number. -/
def parseInt (string : JSString) (radix : Nat) : Option Int :=
  let S := string.dropWhile isStrWhiteSpaceChar
  let sign : Int := if S.head? = some '-' then -1 else 1
  let S := if S.head? = some '-' ∨ S.head? = some '+' then S.tail else S
  if radix ≠ 0 ∧ (radix < 2 ∨ 36 < radix) then none
  else
    let strip := decide (radix = 0 ∨ radix = 16)
    let R := if radix = 0 then 10 else radix
    let has0x := strip && (S.take 2 == ['0', 'x'] || S.take 2 == ['0', 'X'])
    let S := if has0x then S.drop 2 else S
    let R := if has0x then 16 else R
    let Z := S.takeWhile (isRadixDigit R)
    if Z.isEmpty then none
    else some (sign * (digitsValue R Z : Int))

/-- Two hexadecimal digits read as a number: the first is the high digit. -/
def hexPairValue (c₁ c₂ : Char) : Nat :=
  16 * (digitValue c₁).getD 0 + (digitValue c₂).getD 0

end JS

/-! ## Numbers, the `Math` object and the canvas -/

/-- The members of the global `Math` object that the class uses. -/
structure MathObj (α : Type) where
  /-- The constant `Math.PI`. -/
  PI : α
  /-- The function `Math.cos`. -/
  cos : α → α
  /-- The function `Math.sin`. -/
  sin : α → α
  /-- The function `Math.atan2(y, x)`. -/
  atan2 : α → α → α
  /-- The function `Math.sqrt`. -/
  sqrt : α → α

/-- The canvas element found by `document.getElementById(canvasId)`: its pixel
dimensions. -/
structure Canvas (α : Type) where
  width : α
  height : α

/-- One operation on the 2D context `this.ctx`, with its arguments. -/
inductive CanvasOp (α : Type) where
  | clearRect (x y w h : α)
  | fillStyle (color : JS.JSString)
  | fillRect (x y w h : α)
  | beginPath
  | moveTo (x y : α)
  | lineTo (x y : α)
  | arc (x y radius startAngle endAngle : α)
  | closePath
  | fill
  deriving DecidableEq, Repr

/-- The points given to `moveTo` and `lineTo` in a list of context operations,
in order: the vertices of the path. -/
def CanvasOp.vertices {α : Type} : List (CanvasOp α) → List (α × α)
  | [] => []
  | .moveTo x y :: ops => (x, y) :: vertices ops
  | .lineTo x y :: ops => (x, y) :: vertices ops
  | _ :: ops => vertices ops

/-- The colours assigned to `fillStyle` in a list of context operations. -/
def CanvasOp.colors {α : Type} : List (CanvasOp α) → List JS.JSString
  | [] => []
  | .fillStyle c :: ops => c :: colors ops
  | _ :: ops => colors ops

/-- The square of the Euclidean distance between two points. -/
def sqDist {α : Type} [Field α] (p q : α × α) : α :=
  (p.1 - q.1) ^ 2 + (p.2 - q.2) ^ 2

/-- A call of one of the shape methods of the class, with its arguments. -/
inductive DrawCall (α : Type) where
  | drawSquare (x y size : α) (color : JS.JSString)
  | drawCircle (x y radius : α) (color : JS.JSString)
  | drawDiamond (x y size : α) (color : JS.JSString)
  | drawOctagon (x y size : α) (color : JS.JSString)
  | drawTriangle (x y size : α) (color : JS.JSString) (rotation : α)
  | drawEffectTriangle (x y size : α) (color : JS.JSString) (rotation : α)
  deriving DecidableEq, Repr

/-- The fields of an `Identicon` object, as the constructor sets them. -/
structure Identicon (α : Type) where
  input : JS.JSString
  canvas : Canvas α
  gridSize : Nat
  cellSize : α
  canvasCenterX : α
  canvasCenterY : α
  triangleLimit : List (Nat × Nat)
  spinSpeed : α
  rotationAngles : List (List α)

/-- The SHA-256 digest of the empty input, in hexadecimal: a digest of 64
hexadecimal digits on which the statements below are tried. -/
def exampleDigest : JS.JSString :=
  "e3b0c44298fc1c149afbf4c8996fb92427ae41e4649b934ca495991b7852b855".toList

namespace Identicon

open JS

variable {α : Type} [Field α]

/-- The default value of the constructor's parameter `gridSize`. -/
def defaultGridSize : Nat := 5

/-- The fields that the constructor `new Identicon(input, canvasId, gridSize)`
assigns, that is the object it returns when it returns; the canvas is the
element that `canvasId` names. Whether it returns is `Identicon.new`. -/
def constructor (Math : MathObj α) (input : JSString) (canvas : Canvas α)
    (gridSize : Nat) : Identicon α where
  input := input
  canvas := canvas
  gridSize := gridSize
  cellSize := canvas.width / (gridSize : α)
  canvasCenterX := canvas.width / 2
  canvasCenterY := canvas.height / 2
  triangleLimit := [(0, 2), (1, 2), (2, 0), (2, 1), (2, 3), (2, 4), (3, 2), (4, 2)]
  spinSpeed := Math.PI / 180
  rotationAngles := List.replicate gridSize (List.replicate gridSize 0)

/-- The expression `new Identicon(input, canvasId, gridSize)` for an integer
`gridSize ≥ 0`. The last statement of the constructor evaluates
`new Array(this.gridSize)`, which throws a `RangeError` when the length is not
below `2 ^ 32`; given a canvas element with a 2D context, nothing else in the
constructor throws, and nothing in it compares the grid size with the length
of a digest. -/
def new (Math : MathObj α) (input : JSString) (canvas : Canvas α)
    (gridSize : Nat) : Except String (Identicon α) :=
  if gridSize < 2 ^ 32 then .ok (constructor Math input canvas gridSize)
  else .error "RangeError: Invalid array length"

/-- Method `generateHash()`, given the digest bytes that
`crypto.subtle.digest` returns for the encoded input: every byte is written
as two lowercase hexadecimal digits. -/
def generateHash (digest : JSString → List Nat) (self : Identicon α) : JSString :=
  let hexDigit : Nat → Char := fun d =>
    if d < 10 then Char.ofNat (48 + d) else Char.ofNat (87 + d)
  ((digest self.input).map fun b => [hexDigit (b % 256 / 16), hexDigit (b % 16)]).flatten

/-! ## The hash decoder -/

/-- Method `getObjectFromHash(hash, index)`:
`parseInt(hash.substring(index, index + 2), 16) < 150 ? 1 : 0`.
A comparison with `NaN` is false. -/
def getObjectFromHash (hash : JSString) (index : Nat) : Nat :=
  match parseInt (substring hash index (index + 2)) 16 with
  | some value => if value < 150 then 1 else 0
  | none => 0

/-- Method `getColorFromHash(hash, index)`: the template literal
`#` followed by `hash.slice(index, index + 6)`. -/
def getColorFromHash (hash : JSString) (index : Nat) : JSString :=
  '#' :: slice hash index (index + 6)

/-! ## The renderer -/

/-- Method `drawSquare(x, y, size, color)`. -/
def drawSquare (x y size : α) (color : JSString) : List (CanvasOp α) :=
  [.fillStyle color,
   .fillRect (x - size / 2) (y - size / 2) size size]

/-- Method `drawEffectTriangle(x, y, size, color, rotation)`. -/
def drawEffectTriangle (Math : MathObj α) (x y size : α) (color : JSString)
    (rotation : α) : List (CanvasOp α) :=
  [.fillStyle color,
   .beginPath,
   .moveTo (x - size / 2 * Math.cos rotation) (y - size / 2 * Math.sin rotation),
   .lineTo (x + size / 2 * Math.cos (rotation + Math.PI * 2 / 3))
     (y + size / 2 * Math.sin (rotation + Math.PI * 2 / 3)),
   .lineTo (x + size / 2 * Math.cos (rotation - Math.PI * 2 / 3))
     (y + size / 2 * Math.sin (rotation - Math.PI * 2 / 3)),
   .closePath,
   .fill]

/-- Method `drawTriangle(x, y, size, color, rotation)`. -/
def drawTriangle (Math : MathObj α) (x y size : α) (color : JSString)
    (rotation : α) : List (CanvasOp α) :=
  [.fillStyle color,
   .beginPath,
   .moveTo (x + size / 2 * Math.cos (rotation + Math.PI))
     (y + size / 2 * Math.sin (rotation + Math.PI)),
   .lineTo (x + size / 2 * Math.cos (rotation + Math.PI * 5 / 3))
     (y + size / 2 * Math.sin (rotation + Math.PI * 5 / 3)),
   .lineTo (x + size / 2 * Math.cos (rotation - Math.PI * 5 / 3))
     (y + size / 2 * Math.sin (rotation - Math.PI * 5 / 3)),
   .closePath,
   .fill]

/-- Method `drawCircle(x, y, radius, color)`. -/
def drawCircle (Math : MathObj α) (x y radius : α) (color : JSString) :
    List (CanvasOp α) :=
  [.fillStyle color,
   .beginPath,
   .arc x y radius 0 (Math.PI * 2),
   .closePath,
   .fill]

/-- Method `drawDiamond(x, y, size, color)`. -/
def drawDiamond (x y size : α) (color : JSString) : List (CanvasOp α) :=
  [.fillStyle color,
   .beginPath,
   .moveTo x (y - size / 2),
   .lineTo (x + size / 2) y,
   .lineTo x (y + size / 2),
   .lineTo (x - size / 2) y,
   .closePath,
   .fill]

/-- Method `drawOctagon(x, y, size, color)`: the loop over `i = 0, ..., 7`
moves to the first vertex and draws a line to each of the others. -/
def drawOctagon (Math : MathObj α) (x y size : α) (color : JSString) :
    List (CanvasOp α) :=
  let octagonRadius := size / 2 * Math.sqrt 2 / (1 + Math.sqrt 2)
  [.fillStyle color, .beginPath] ++
  (List.range 8).map (fun (i : Nat) =>
    let angle := Math.PI / 4 * (i : α)
    let octagonX := x + octagonRadius * Math.cos angle
    let octagonY := y + octagonRadius * Math.sin angle
    if i = 0 then CanvasOp.moveTo octagonX octagonY
    else CanvasOp.lineTo octagonX octagonY) ++
  [.closePath, .fill]

/-- Method `drawCenterShape(x, y, color, objectKey)`: the shape method it
calls, if any. The `switch` has the cases 0, 1, 2, 3 and no default. -/
def drawCenterShape (self : Identicon α) (x y : α) (color : JSString)
    (objectKey : Nat) : List (DrawCall α) :=
  match objectKey with
  | 0 => [.drawSquare x y self.cellSize color]
  | 1 => [.drawCircle x y (self.cellSize / 2) color]
  | 2 => [.drawDiamond x y self.cellSize color]
  | 3 => [.drawOctagon x y self.cellSize color]
  | _ => []

end Identicon

/-- The context operations that a call of a shape method performs. -/
def DrawCall.run {α : Type} [Field α] (Math : MathObj α) : DrawCall α → List (CanvasOp α)
  | .drawSquare x y size color => Identicon.drawSquare x y size color
  | .drawCircle x y radius color => Identicon.drawCircle Math x y radius color
  | .drawDiamond x y size color => Identicon.drawDiamond x y size color
  | .drawOctagon x y size color => Identicon.drawOctagon Math x y size color
  | .drawTriangle x y size color rotation =>
      Identicon.drawTriangle Math x y size color rotation
  | .drawEffectTriangle x y size color rotation =>
      Identicon.drawEffectTriangle Math x y size color rotation

namespace Identicon

open JS

variable {α : Type} [Field α]

/-! ## The orchestrator -/

/-- The test `row === Math.floor(this.gridSize / 2) && col ===
Math.floor(this.gridSize / 2)` of `generateIdenticon`; on the integer
`gridSize` the floor of the half is the integer quotient. -/
def isCenter (self : Identicon α) (row col : Nat) : Bool :=
  row == self.gridSize / 2 && col == self.gridSize / 2

/-- The test `this.triangleLimit.some(([r, c]) => r === row && c === col)` of
`generateIdenticon`. -/
def inTriangleLimit (self : Identicon α) (row col : Nat) : Bool :=
  self.triangleLimit.any (fun p => p.1 == row && p.2 == col)

/-- The body of the inner loop of `generateIdenticon` for the cell
`(row, col)`: the shape methods it calls, in order. -/
def generateIdenticon.cell (Math : MathObj α) (self : Identicon α) (hash : JSString)
    (centerColor triangleColor effectTriangleColor : JSString)
    (row col : Nat) : List (DrawCall α) :=
  let x := (col : α) * self.cellSize + self.cellSize / 2
  let y := (row : α) * self.cellSize + self.cellSize / 2
  let objectKey := getObjectFromHash hash ((row * self.gridSize + col) * 2)
  let colorKey := getObjectFromHash hash ((row * self.gridSize + col) * 2 + 2)
  let _color := getColorFromHash hash (colorKey * 6)
  let rotation := Math.atan2 (self.canvasCenterY - y) (self.canvasCenterX - x)
  if isCenter self row col then
    drawCenterShape self x y centerColor objectKey
  else
    match objectKey with
    | 0 => []
    | 1 =>
      if inTriangleLimit self row col then
        [.drawTriangle x y self.cellSize triangleColor rotation]
      else
        [.drawEffectTriangle x y self.cellSize effectTriangleColor rotation]
    | _ => []

/-- The two nested loops of `generateIdenticon` on the digest `hash`: for every
cell, in the order the loops visit them, the shape methods called for it. -/
def generateIdenticon.cells (Math : MathObj α) (self : Identicon α) (hash : JSString) :
    List ((Nat × Nat) × List (DrawCall α)) :=
  let centerColor := getColorFromHash hash 0
  let triangleColor := getColorFromHash hash 6
  let effectTriangleColor := getColorFromHash hash 12
  (List.range self.gridSize).flatMap fun row =>
    (List.range self.gridSize).map fun col =>
      ((row, col),
        generateIdenticon.cell Math self hash centerColor triangleColor
          effectTriangleColor row col)

/-- The part of `generateIdenticon()` that follows the computation of the
digest `hash`: the operations performed on the context, in order. -/
def generateIdenticon.draw (Math : MathObj α) (self : Identicon α) (hash : JSString) :
    List (CanvasOp α) :=
  .clearRect 0 0 self.canvas.width self.canvas.height ::
    (generateIdenticon.cells Math self hash).flatMap fun cell =>
      cell.2.flatMap (DrawCall.run Math)

/-- Method `generateIdenticon()`, given the digest function of the platform. -/
def generateIdenticon (Math : MathObj α) (digest : JSString → List Nat)
    (self : Identicon α) : List (CanvasOp α) :=
  generateIdenticon.draw Math self (generateHash digest self)

/-- The listener of the text field and the initial call at the end of the
script: a new `Identicon` is made for the value of the field, on the canvas
`identicon` with the default grid size, and its `generateIdenticon()` is
called. The operations are those that the call performs once its digest is
there: after the `await` the method runs to its end without another one, so
they reach the context as one block. -/
def onInput (Math : MathObj α) (digest : JSString → List Nat) (canvas : Canvas α)
    (value : JSString) : List (CanvasOp α) :=
  match Identicon.new Math value canvas defaultGridSize with
  | .ok self => generateIdenticon Math digest self
  | .error _ => []

/-- The blocks of operations that reach the context in a session. The events
of the text field have the values `values`, in the order of the events. The
listener does not wait for `generateIdenticon()`, so the blocks reach the
context in the order in which the digests are there: `order` lists the
numbers of the events in that order. -/
def session (Math : MathObj α) (digest : JSString → List Nat) (canvas : Canvas α)
    (values : List JSString) (order : List Nat) : List (List (CanvasOp α)) :=
  order.filterMap fun i => (values[i]?).map (onInput Math digest canvas)

/-! ## The values that the loop body computes for a cell -/

/-- The constant `x` of the loop body: `col * this.cellSize + this.cellSize / 2`. -/
def generateIdenticon.x (self : Identicon α) (col : Nat) : α :=
  (col : α) * self.cellSize + self.cellSize / 2

/-- The constant `y` of the loop body: `row * this.cellSize + this.cellSize / 2`. -/
def generateIdenticon.y (self : Identicon α) (row : Nat) : α :=
  (row : α) * self.cellSize + self.cellSize / 2

/-- The offset that the loop body gives to `getObjectFromHash` for `objectKey`. -/
def generateIdenticon.objectIndex (self : Identicon α) (row col : Nat) : Nat :=
  (row * self.gridSize + col) * 2

/-- The offset that the loop body gives to `getObjectFromHash` for `colorKey`. -/
def generateIdenticon.colorIndex (self : Identicon α) (row col : Nat) : Nat :=
  (row * self.gridSize + col) * 2 + 2

/-- The constant `objectKey` of the loop body. -/
def generateIdenticon.objectKey (self : Identicon α) (hash : JSString)
    (row col : Nat) : Nat :=
  getObjectFromHash hash (generateIdenticon.objectIndex self row col)

/-- The constant `colorKey` of the loop body. -/
def generateIdenticon.colorKey (self : Identicon α) (hash : JSString)
    (row col : Nat) : Nat :=
  getObjectFromHash hash (generateIdenticon.colorIndex self row col)

/-- The constant `color` of the loop body. -/
def generateIdenticon.color (self : Identicon α) (hash : JSString)
    (row col : Nat) : JSString :=
  getColorFromHash hash (generateIdenticon.colorKey self hash row col * 6)

/-- The two arguments of `Math.atan2` in the loop body, in order:
`this.canvasCenterY - y` and `this.canvasCenterX - x`. -/
def generateIdenticon.atan2Args (self : Identicon α) (row col : Nat) : α × α :=
  (self.canvasCenterY - generateIdenticon.y self row,
   self.canvasCenterX - generateIdenticon.x self col)

/-- The constant `rotation` of the loop body. -/
def generateIdenticon.rotation (Math : MathObj α) (self : Identicon α)
    (row col : Nat) : α :=
  Math.atan2 (generateIdenticon.atan2Args self row col).1
    (generateIdenticon.atan2Args self row col).2

/-- The offsets that the loops of `generateIdenticon` give to
`getObjectFromHash`, in the order of the calls: two for every cell. -/
def generateIdenticon.reads (self : Identicon α) : List Nat :=
  (List.range self.gridSize).flatMap fun row =>
    (List.range self.gridSize).flatMap fun col =>
      [generateIdenticon.objectIndex self row col,
       generateIdenticon.colorIndex self row col]

end Identicon

/-! ## The state of the 2D context -/

/-- What an operation leaves on the bitmap of the canvas: a filled rectangle,
a filled path, or a cleared rectangle. -/
inductive Mark (α : Type) where
  | rect (x y w h : α) (style : JS.JSString)
  | region (path : List (CanvasOp α)) (style : JS.JSString)
  | erased (x y w h : α)
  deriving DecidableEq, Repr

/-- The state of the 2D context that the operations of the class read or
write: the fill style, the current path (the operations that built it since
the last `beginPath`) and the bitmap (the marks left on it, in order). The
class changes no other attribute of the context. -/
structure ContextState (α : Type) where
  fillStyle : JS.JSString
  path : List (CanvasOp α)
  bitmap : List (Mark α)

/-- The state of a context that nothing was drawn on: the fill style is
black, the path and the bitmap are empty. -/
def ContextState.initial {α : Type} : ContextState α :=
  ⟨"#000000".toList, [], []⟩

/-- The effect of one operation on the state of the context of `canvas`.
An assignment to `fillStyle` of a string that is not a colour is ignored
(`validColor` is the colour parser of the platform). `clearRect` on the whole
canvas leaves an empty bitmap. `fillRect` paints with the fill style and does
not touch the path; `fill` paints the current path with the fill style. -/
def CanvasOp.exec {α : Type} [Field α] [DecidableEq α] (validColor : JS.JSString → Bool)
    (canvas : Canvas α) (st : ContextState α) : CanvasOp α → ContextState α
  | .clearRect x y w h =>
      if x = 0 ∧ y = 0 ∧ w = canvas.width ∧ h = canvas.height then
        ⟨st.fillStyle, st.path, []⟩
      else ⟨st.fillStyle, st.path, st.bitmap ++ [.erased x y w h]⟩
  | .fillStyle color =>
      if validColor color then ⟨color, st.path, st.bitmap⟩ else st
  | .fillRect x y w h =>
      ⟨st.fillStyle, st.path, st.bitmap ++ [.rect x y w h st.fillStyle]⟩
  | .beginPath => ⟨st.fillStyle, [], st.bitmap⟩
  | .moveTo x y => ⟨st.fillStyle, st.path ++ [.moveTo x y], st.bitmap⟩
  | .lineTo x y => ⟨st.fillStyle, st.path ++ [.lineTo x y], st.bitmap⟩
  | .arc x y radius startAngle endAngle =>
      ⟨st.fillStyle, st.path ++ [.arc x y radius startAngle endAngle], st.bitmap⟩
  | .closePath => ⟨st.fillStyle, st.path ++ [.closePath], st.bitmap⟩
  | .fill => ⟨st.fillStyle, st.path, st.bitmap ++ [.region st.path st.fillStyle]⟩

/-- The effect of a list of operations, performed in order. -/
def CanvasOp.execAll {α : Type} [Field α] [DecidableEq α] (validColor : JS.JSString → Bool)
    (canvas : Canvas α) (st : ContextState α) (ops : List (CanvasOp α)) :
    ContextState α :=
  ops.foldl (CanvasOp.exec validColor canvas) st

/-- Whether a string is a colour written `#` and six hexadecimal digits. -/
def isHexColor : JS.JSString → Bool
  | [] => false
  | c :: rest => c == '#' && rest.length == 6 && rest.all (JS.isRadixDigit 16)

/-- The colour argument of a call of a shape method. -/
def DrawCall.color {α : Type} : DrawCall α → JS.JSString
  | .drawSquare _ _ _ color => color
  | .drawCircle _ _ _ color => color
  | .drawDiamond _ _ _ color => color
  | .drawOctagon _ _ _ color => color
  | .drawTriangle _ _ _ color _ => color
  | .drawEffectTriangle _ _ _ color _ => color

/-- Whether a call is one of `drawDiamond`. -/
def DrawCall.isDiamond {α : Type} : DrawCall α → Bool
  | .drawDiamond _ _ _ _ => true
  | _ => false

/-- Whether a call is one of `drawOctagon`. -/
def DrawCall.isOctagon {α : Type} : DrawCall α → Bool
  | .drawOctagon _ _ _ _ => true
  | _ => false

/-- The bytes of the SHA-256 digest of the empty input. -/
def exampleDigestBytes : List Nat :=
  [0xe3, 0xb0, 0xc4, 0x42, 0x98, 0xfc, 0x1c, 0x14, 0x9a, 0xfb, 0xf4, 0xc8, 0x99, 0x6f,
   0xb9, 0x24, 0x27, 0xae, 0x41, 0xe4, 0x64, 0x9b, 0x93, 0x4c, 0xa4, 0x95, 0x99, 0x1b,
   0x78, 0x52, 0xb8, 0x55]

/-- The example digest with its byte 14 (the digits at offsets 28 and 29, the
colour key of the cell `(2, 3)` of a grid of size 5) set to zero. -/
def alteredDigest : JS.JSString :=
  "e3b0c44298fc1c149afbf4c8996f002427ae41e4649b934ca495991b7852b855".toList

/-- Whether a string is a digest of 64 hexadecimal digits. -/
def isHexDigest (hash : JS.JSString) : Bool :=
  hash.length == 64 && hash.all (JS.isRadixDigit 16)

/-! ## Facts about the string functions -/

namespace JS

theorem digitValue_eq_none_of_whiteSpace (c : Char)
    (h : isStrWhiteSpaceChar c = true) : digitValue c = none := by
  unfold isStrWhiteSpaceChar at h
  unfold digitValue
  simp only [Bool.or_eq_true, Bool.and_eq_true, decide_eq_true_eq] at h
  generalize c.toNat = n at h ⊢
  rw [if_neg (by omega), if_neg (by omega), if_neg (by omega)]

theorem isRadixDigit_iff (R : Nat) (c : Char) :
    isRadixDigit R c = true ↔ ∃ d, digitValue c = some d ∧ d < R := by
  unfold isRadixDigit
  cases h : digitValue c <;> simp

theorem not_whiteSpace_of_isRadixDigit {R : Nat} {c : Char}
    (h : isRadixDigit R c = true) : isStrWhiteSpaceChar c = false := by
  obtain ⟨d, hd, _⟩ := (isRadixDigit_iff R c).1 h
  cases hw : isStrWhiteSpaceChar c
  · rfl
  · rw [digitValue_eq_none_of_whiteSpace c hw] at hd
    cases hd

theorem ne_sign_of_isRadixDigit {R : Nat} {c : Char}
    (h : isRadixDigit R c = true) : c ≠ '-' ∧ c ≠ '+' := by
  constructor <;>
  · rintro rfl
    revert h
    simp [isRadixDigit, digitValue]

theorem ne_x_of_isRadixDigit16 {c : Char}
    (h : isRadixDigit 16 c = true) : c ≠ 'x' ∧ c ≠ 'X' := by
  constructor <;>
  · rintro rfl
    revert h
    decide

/-- On two hexadecimal digits `parseInt(_, 16)` is the number they write. -/
theorem parseInt_hexPair (c₁ c₂ : Char) (h₁ : isRadixDigit 16 c₁ = true)
    (h₂ : isRadixDigit 16 c₂ = true) :
    parseInt [c₁, c₂] 16 = some (hexPairValue c₁ c₂ : Int) := by
  have hw := not_whiteSpace_of_isRadixDigit h₁
  obtain ⟨hm, hp⟩ := ne_sign_of_isRadixDigit h₁
  obtain ⟨hx, hX⟩ := ne_x_of_isRadixDigit16 h₂
  simp [parseInt, List.dropWhile, hw, hm, hp, hx, hX, List.takeWhile, h₁, h₂,
    digitsValue, hexPairValue]
  ring

theorem hexPairValue_le (c₁ c₂ : Char) (h₁ : isRadixDigit 16 c₁ = true)
    (h₂ : isRadixDigit 16 c₂ = true) : hexPairValue c₁ c₂ ≤ 255 := by
  obtain ⟨d₁, e₁, l₁⟩ := (isRadixDigit_iff 16 c₁).1 h₁
  obtain ⟨d₂, e₂, l₂⟩ := (isRadixDigit_iff 16 c₂).1 h₂
  simp only [hexPairValue, e₁, e₂, Option.getD_some]
  omega

/-- The substring of two code units that starts at an offset where two code
units are present. -/
theorem substring_pair (s : JSString) (i : Nat) (c₁ c₂ : Char)
    (h₁ : s[i]? = some c₁) (h₂ : s[i + 1]? = some c₂) :
    substring s i (i + 2) = [c₁, c₂] := by
  obtain ⟨hlt₁, rfl⟩ := List.getElem?_eq_some_iff.1 h₁
  obtain ⟨hlt₂, rfl⟩ := List.getElem?_eq_some_iff.1 h₂
  have e₁ : min i s.length = i := by omega
  have e₂ : min (i + 2) s.length = i + 2 := by omega
  have e₃ : min i (i + 2) = i := by omega
  have e₄ : max i (i + 2) = i + 2 := by omega
  simp only [substring, e₁, e₂, e₃, e₄, Nat.add_sub_cancel_left]
  rw [List.drop_eq_getElem_cons hlt₁, List.take_succ_cons,
    List.drop_eq_getElem_cons hlt₂, List.take_succ_cons, List.take_zero]

end JS

/-! ## The hash decoder: theorems -/

namespace Identicon

open JS

/-- C1. At an offset `i` where `hash[i]` and `hash[i + 1]` are hexadecimal
digits writing the value `v`, `v` is at most 255 and `getObjectFromHash(hash, i)`
is 1 when `v ≤ 149` and 0 when `v ≥ 150`; the pair `95` is 149 and gives 1, the
pair `96` is 150 and gives 0. -/
theorem getObjectFromHash_threshold (hash : JSString) (i : Nat) (c₁ c₂ : Char)
    (h₁ : hash[i]? = some c₁) (h₂ : hash[i + 1]? = some c₂)
    (hd₁ : isRadixDigit 16 c₁ = true) (hd₂ : isRadixDigit 16 c₂ = true) :
    hexPairValue c₁ c₂ ≤ 255 ∧
    (hexPairValue c₁ c₂ ≤ 149 → getObjectFromHash hash i = 1) ∧
    (150 ≤ hexPairValue c₁ c₂ → getObjectFromHash hash i = 0) ∧
    hexPairValue '9' '5' = 149 ∧
    (c₁ = '9' → c₂ = '5' → getObjectFromHash hash i = 1) ∧
    hexPairValue '9' '6' = 150 ∧
    (c₁ = '9' → c₂ = '6' → getObjectFromHash hash i = 0) := by
  have key : getObjectFromHash hash i = if hexPairValue c₁ c₂ < 150 then 1 else 0 := by
    unfold getObjectFromHash
    rw [substring_pair hash i c₁ c₂ h₁ h₂, parseInt_hexPair c₁ c₂ hd₁ hd₂]
    simp only []
    by_cases h : hexPairValue c₁ c₂ < 150
    · rw [if_pos h, if_pos (by exact_mod_cast h)]
    · rw [if_neg h, if_neg (by exact_mod_cast h)]
  have v95 : hexPairValue '9' '5' = 149 := by decide
  have v96 : hexPairValue '9' '6' = 150 := by decide
  refine ⟨hexPairValue_le c₁ c₂ hd₁ hd₂, ?_, ?_, v95, ?_, v96, ?_⟩
  · intro h
    rw [key, if_pos (by omega)]
  · intro h
    rw [key, if_neg (by omega)]
  · rintro rfl rfl
    rw [key, v95]
    rfl
  · rintro rfl rfl
    rw [key, v96]
    rfl

/-- C1 on the example digest: offset 24 holds the digits `99`, the value 153,
and the bit is 0. -/
theorem getObjectFromHash_threshold_witness :
    (exampleDigest[24]? = some '9' ∧ exampleDigest[24 + 1]? = some '9' ∧
      isRadixDigit 16 '9' = true ∧ 150 ≤ hexPairValue '9' '9') ∧
    getObjectFromHash exampleDigest 24 = 0 :=
  ⟨⟨by decide, by decide, by decide, by decide⟩,
    (getObjectFromHash_threshold exampleDigest 24 '9' '9' (by decide) (by decide)
      (by decide) (by decide)).2.2.1 (by decide)⟩

/-- C2. When `i + 6 ≤ length(hash)`, `getColorFromHash(hash, i)` has 7 code
units: `#`, then `hash[i], ..., hash[i + 5]` in order; on a hash that begins
with `1a2b3c` and `i = 0` it is `#1a2b3c`. -/
theorem getColorFromHash_chars (hash : JSString) (i : Nat)
    (h : i + 6 ≤ hash.length) :
    (getColorFromHash hash i).length = 7 ∧
    (getColorFromHash hash i)[0]? = some '#' ∧
    (∀ k, k < 6 → (getColorFromHash hash i)[k + 1]? = hash[i + k]?) ∧
    (∀ rest : JSString,
      getColorFromHash ("1a2b3c".toList ++ rest) 0 = "#1a2b3c".toList) := by
  have e₁ : min i hash.length = i := by omega
  have e₂ : min (i + 6) hash.length = i + 6 := by omega
  have hs : slice hash i (i + 6) = (hash.drop i).take 6 := by
    simp only [JS.slice, e₁, e₂, Nat.add_sub_cancel_left]
  refine ⟨?_, by simp [getColorFromHash], ?_, ?_⟩
  · simp only [getColorFromHash, hs, List.length_cons, List.length_take, List.length_drop]
    omega
  · intro k hk
    simp only [getColorFromHash, hs, List.getElem?_cons_succ]
    rw [List.getElem?_take_of_lt hk, List.getElem?_drop]
  · intro rest
    simp [getColorFromHash, JS.slice]

/-- C2 on the example digest at offset 12. -/
theorem getColorFromHash_chars_witness :
    12 + 6 ≤ exampleDigest.length ∧
    (getColorFromHash exampleDigest 12).length = 7 ∧
    (getColorFromHash exampleDigest 12)[0]? = some '#' ∧
    (getColorFromHash exampleDigest 12)[5 + 1]? = exampleDigest[12 + 5]? :=
  ⟨by decide,
    (getColorFromHash_chars exampleDigest 12 (by decide)).1,
    (getColorFromHash_chars exampleDigest 12 (by decide)).2.1,
    (getColorFromHash_chars exampleDigest 12 (by decide)).2.2.1 5 (by decide)⟩

end Identicon

/-! ## The grid: theorems -/

namespace Identicon

open JS

variable {α : Type} [Field α]

/-- The records of a run of the loops: one for each cell of the grid, holding
what the loop body does there. -/
theorem mem_cells_iff (Math : MathObj α) (self : Identicon α) (hash : JSString)
    (row col : Nat) (calls : List (DrawCall α)) :
    ((row, col), calls) ∈ generateIdenticon.cells Math self hash ↔
      row < self.gridSize ∧ col < self.gridSize ∧
      calls = generateIdenticon.cell Math self hash (getColorFromHash hash 0)
        (getColorFromHash hash 6) (getColorFromHash hash 12) row col := by
  simp only [generateIdenticon.cells, List.mem_flatMap, List.mem_map, List.mem_range,
    Prod.mk.injEq]
  constructor
  · rintro ⟨r, hr, c, hc, ⟨rfl, rfl⟩, rfl⟩
    exact ⟨hr, hc, rfl⟩
  · rintro ⟨hr, hc, rfl⟩
    exact ⟨row, hr, col, hc, ⟨rfl, rfl⟩, rfl⟩

theorem length_cells (Math : MathObj α) (self : Identicon α) (hash : JSString) :
    (generateIdenticon.cells Math self hash).length = self.gridSize * self.gridSize := by
  simp [generateIdenticon.cells, List.length_flatMap, Function.comp_def]

end Identicon

/-! ## The shape selector: theorems -/

namespace Identicon

open JS

variable {α : Type} [Field α]

theorem getObjectFromHash_zero_or_one (hash : JSString) (index : Nat) :
    getObjectFromHash hash index = 0 ∨ getObjectFromHash hash index = 1 := by
  unfold getObjectFromHash
  cases parseInt (substring hash index (index + 2)) 16 with
  | none => exact Or.inl rfl
  | some value =>
    by_cases h : value < 150
    · exact Or.inr (if_pos h)
    · exact Or.inl (if_neg h)

/-- C3. With grid size 5, the run of `generateIdenticon` on any digest (so
on every digest of 64 hexadecimal digits) records exactly one shape call for
the center cell `(2, 2)`. Its object key `getObjectFromHash(hash, 24)` is 0 or
1. When it is 0 the call is `drawSquare` at the cell's pixel centre with side
`cellSize`: one rectangle with corner `(x - cellSize/2, y - cellSize/2)`. When
it is 1 the call is `drawCircle` at the cell's pixel centre with radius
`cellSize / 2`. Either way the only fill colour set is
`getColorFromHash(hash, 0)`. -/
theorem center_cell_shape (Math : MathObj α) (input : JSString) (canvas : Canvas α)
    (hash : JSString) :
    let S := canvas.width / 5
    let x := 2 * S + S / 2
    let y := 2 * S + S / 2
    let color := getColorFromHash hash 0
    (getObjectFromHash hash 24 = 0 ∨ getObjectFromHash hash 24 = 1) ∧
    (getObjectFromHash hash 24 = 0 →
      (∀ calls, ((2, 2), calls) ∈
          generateIdenticon.cells Math (constructor Math input canvas 5) hash ↔
        calls = [DrawCall.drawSquare x y S color]) ∧
      DrawCall.run Math (DrawCall.drawSquare x y S color) =
        [CanvasOp.fillStyle color, CanvasOp.fillRect (x - S / 2) (y - S / 2) S S]) ∧
    (getObjectFromHash hash 24 = 1 →
      (∀ calls, ((2, 2), calls) ∈
          generateIdenticon.cells Math (constructor Math input canvas 5) hash ↔
        calls = [DrawCall.drawCircle x y (S / 2) color]) ∧
      DrawCall.run Math (DrawCall.drawCircle x y (S / 2) color) =
        [CanvasOp.fillStyle color, CanvasOp.beginPath,
         CanvasOp.arc x y (S / 2) 0 (Math.PI * 2), CanvasOp.closePath, CanvasOp.fill]) := by
  intro S x y color
  refine ⟨getObjectFromHash_zero_or_one hash 24, ?_, ?_⟩
  · intro hk
    refine ⟨fun calls => ?_, rfl⟩
    rw [mem_cells_iff]
    simp [generateIdenticon.cell, constructor, isCenter, hk, drawCenterShape, S, x, y, color]
  · intro hk
    refine ⟨fun calls => ?_, rfl⟩
    rw [mem_cells_iff]
    simp [generateIdenticon.cell, constructor, isCenter, hk, drawCenterShape, S, x, y, color]

/-- C3 on the example digest, whose center key is 0, on a canvas of 200 by 200:
the center cell gets one square. -/
theorem center_cell_shape_witness :
    getObjectFromHash exampleDigest 24 = 0 ∧
    ∀ calls : List (DrawCall ℝ), ((2, 2), calls) ∈
        generateIdenticon.cells (MathObj.mk Real.pi Real.cos Real.sin
            (fun b a => Complex.arg ⟨a, b⟩) Real.sqrt)
          (constructor (MathObj.mk Real.pi Real.cos Real.sin
            (fun b a => Complex.arg ⟨a, b⟩) Real.sqrt) [] ⟨200, 200⟩ 5) exampleDigest ↔
      calls = [DrawCall.drawSquare (2 * (200 / 5) + 200 / 5 / 2)
        (2 * (200 / 5) + 200 / 5 / 2) (200 / 5) (getColorFromHash exampleDigest 0)] :=
  ⟨by decide,
    ((center_cell_shape (MathObj.mk Real.pi Real.cos Real.sin
        (fun b a => Complex.arg ⟨a, b⟩) Real.sqrt) [] ⟨200, 200⟩ exampleDigest).2.1
      (by decide)).1⟩

/-- C4. For any digest and grid size `N`, a cell `(row, col)` of the grid
that is not the center cell and whose object key
`getObjectFromHash(hash, (row * N + col) * 2)` is 0 gets no shape call in the
run of `generateIdenticon`: its record is the empty list. -/
theorem empty_cell_draws_nothing (Math : MathObj α) (input : JSString)
    (canvas : Canvas α) (N : Nat) (hash : JSString) (row col : Nat)
    (hrow : row < N) (hcol : col < N)
    (hcenter : isCenter (constructor Math input canvas N) row col = false)
    (hkey : getObjectFromHash hash ((row * N + col) * 2) = 0) :
    ∀ calls, ((row, col), calls) ∈
        generateIdenticon.cells Math (constructor Math input canvas N) hash ↔
      calls = [] := by
  intro calls
  rw [mem_cells_iff]
  have hN : (constructor Math input canvas N).gridSize = N := rfl
  simp only [generateIdenticon.cell, hcenter, hN, hkey, hrow, hcol, true_and]
  simp

/-- C4 on the example digest with grid size 5: the cell `(0, 0)` has key 0 and
gets no shape call. -/
theorem empty_cell_draws_nothing_witness :
    (0 < 5 ∧
      isCenter (constructor (MathObj.mk Real.pi Real.cos Real.sin
        (fun b a => Complex.arg ⟨a, b⟩) Real.sqrt) [] ⟨200, 200⟩ 5) 0 0 = false ∧
      getObjectFromHash exampleDigest ((0 * 5 + 0) * 2) = 0) ∧
    ∀ calls : List (DrawCall ℝ), ((0, 0), calls) ∈
        generateIdenticon.cells (MathObj.mk Real.pi Real.cos Real.sin
            (fun b a => Complex.arg ⟨a, b⟩) Real.sqrt)
          (constructor (MathObj.mk Real.pi Real.cos Real.sin
            (fun b a => Complex.arg ⟨a, b⟩) Real.sqrt) [] ⟨200, 200⟩ 5) exampleDigest ↔
      calls = [] :=
  ⟨⟨by decide, rfl, by decide⟩,
    empty_cell_draws_nothing (MathObj.mk Real.pi Real.cos Real.sin
        (fun b a => Complex.arg ⟨a, b⟩) Real.sqrt) [] ⟨200, 200⟩ 5 exampleDigest 0 0
      (by decide) (by decide) (by rfl) (by decide)⟩

/-- C5. For any digest (so for every digest of 64 hexadecimal digits) and
grid size `N` (so for 5), a cell `(row, col)` of the grid that is not the
center cell and whose object key is 1 gets exactly one shape call in the run
of `generateIdenticon`: `drawTriangle` with colour `getColorFromHash(hash, 6)`
when the cell is in `triangleLimit`, `drawEffectTriangle` with colour
`getColorFromHash(hash, 12)` otherwise. In both the centre is the cell's pixel
centre `(col * S + S/2, row * S + S/2)`, the size is the cell size `S` and the
rotation is `atan2(canvasCenterY - y, canvasCenterX - x)`; the call sets no
other fill colour. -/
theorem shape_cell_draws_triangle (Math : MathObj α) (input : JSString)
    (canvas : Canvas α) (N : Nat) (hash : JSString) (row col : Nat)
    (hrow : row < N) (hcol : col < N)
    (hcenter : isCenter (constructor Math input canvas N) row col = false)
    (hkey : getObjectFromHash hash ((row * N + col) * 2) = 1) :
    let S := canvas.width / (N : α)
    let x := (col : α) * S + S / 2
    let y := (row : α) * S + S / 2
    let rotation := Math.atan2 (canvas.height / 2 - y) (canvas.width / 2 - x)
    (inTriangleLimit (constructor Math input canvas N) row col = true →
      (∀ calls, ((row, col), calls) ∈
          generateIdenticon.cells Math (constructor Math input canvas N) hash ↔
        calls = [DrawCall.drawTriangle x y S (getColorFromHash hash 6) rotation]) ∧
      CanvasOp.colors (DrawCall.run Math
          (DrawCall.drawTriangle x y S (getColorFromHash hash 6) rotation)) =
        [getColorFromHash hash 6]) ∧
    (inTriangleLimit (constructor Math input canvas N) row col = false →
      (∀ calls, ((row, col), calls) ∈
          generateIdenticon.cells Math (constructor Math input canvas N) hash ↔
        calls = [DrawCall.drawEffectTriangle x y S (getColorFromHash hash 12) rotation]) ∧
      CanvasOp.colors (DrawCall.run Math
          (DrawCall.drawEffectTriangle x y S (getColorFromHash hash 12) rotation)) =
        [getColorFromHash hash 12]) := by
  intro S x y rotation
  have hN : (constructor Math input canvas N).gridSize = N := rfl
  constructor
  · intro hlim
    refine ⟨fun calls => ?_, rfl⟩
    rw [mem_cells_iff]
    simp only [generateIdenticon.cell, hcenter, hN, hkey, hrow, hcol, true_and, hlim]
    simp [constructor, S, x, y, rotation]
  · intro hlim
    refine ⟨fun calls => ?_, rfl⟩
    rw [mem_cells_iff]
    simp only [generateIdenticon.cell, hcenter, hN, hkey, hrow, hcol, true_and, hlim]
    simp [constructor, S, x, y, rotation]

/-- C5 on the example digest with grid size 5: the cell `(0, 3)` has key 1, is
not in `triangleLimit` and gets one `drawEffectTriangle` call. -/
theorem shape_cell_draws_triangle_witness :
    (0 < 5 ∧ 3 < 5 ∧
      isCenter (constructor (MathObj.mk Real.pi Real.cos Real.sin
        (fun b a => Complex.arg ⟨a, b⟩) Real.sqrt) [] ⟨200, 200⟩ 5) 0 3 = false ∧
      getObjectFromHash exampleDigest ((0 * 5 + 3) * 2) = 1 ∧
      inTriangleLimit (constructor (MathObj.mk Real.pi Real.cos Real.sin
        (fun b a => Complex.arg ⟨a, b⟩) Real.sqrt) [] ⟨200, 200⟩ 5) 0 3 = false) ∧
    ∀ calls : List (DrawCall ℝ), ((0, 3), calls) ∈
        generateIdenticon.cells (MathObj.mk Real.pi Real.cos Real.sin
            (fun b a => Complex.arg ⟨a, b⟩) Real.sqrt)
          (constructor (MathObj.mk Real.pi Real.cos Real.sin
            (fun b a => Complex.arg ⟨a, b⟩) Real.sqrt) [] ⟨200, 200⟩ 5) exampleDigest ↔
      calls = [DrawCall.drawEffectTriangle
        (((3 : ℕ) : ℝ) * (200 / ((5 : ℕ) : ℝ)) + 200 / ((5 : ℕ) : ℝ) / 2)
        (((0 : ℕ) : ℝ) * (200 / ((5 : ℕ) : ℝ)) + 200 / ((5 : ℕ) : ℝ) / 2)
        (200 / ((5 : ℕ) : ℝ)) (getColorFromHash exampleDigest 12)
        (Complex.arg ⟨200 / 2 - (((3 : ℕ) : ℝ) * (200 / ((5 : ℕ) : ℝ)) +
            200 / ((5 : ℕ) : ℝ) / 2),
          200 / 2 - (((0 : ℕ) : ℝ) * (200 / ((5 : ℕ) : ℝ)) + 200 / ((5 : ℕ) : ℝ) / 2)⟩)] :=
  ⟨⟨by decide, by decide, rfl, by decide, rfl⟩,
    ((shape_cell_draws_triangle (MathObj.mk Real.pi Real.cos Real.sin
        (fun b a => Complex.arg ⟨a, b⟩) Real.sqrt) [] ⟨200, 200⟩ 5 exampleDigest 0 3
      (by decide) (by decide) (by rfl) (by decide)).2 (by rfl)).1⟩

end Identicon

/-! ## The center cell and the boundary set: theorems -/

namespace Identicon

open JS

variable {α : Type} [Field α]

/-- C6. For a grid size `N ≥ 1`, exactly one cell `(row, col)` with
`row, col < N` passes the center test of `generateIdenticon`, and it is
`(⌊N/2⌋, ⌊N/2⌋)`; with `N = 5`, the cells that the loops visit are 25 and the
only one that passes the test is `(2, 2)`. -/
theorem center_cell_unique (Math : MathObj α) (input : JSString) (canvas : Canvas α)
    (N : Nat) (hN : 1 ≤ N) :
    (∀ row col, row < N → col < N →
      (isCenter (constructor Math input canvas N) row col = true ↔
        (row, col) = (N / 2, N / 2))) ∧
    (∃! p : Nat × Nat, p.1 < N ∧ p.2 < N ∧
      isCenter (constructor Math input canvas N) p.1 p.2 = true) ∧
    (∀ hash : JSString,
      (generateIdenticon.cells Math (constructor Math input canvas 5) hash).length = 25 ∧
      ((generateIdenticon.cells Math (constructor Math input canvas 5) hash).map
          Prod.fst).filter
        (fun p => isCenter (constructor Math input canvas 5) p.1 p.2) = [(2, 2)]) := by
  have hc : ∀ row col,
      (isCenter (constructor Math input canvas N) row col = true ↔
        (row, col) = (N / 2, N / 2)) := by
    intro row col
    simp [isCenter, constructor]
  refine ⟨fun row col _ _ => hc row col, ?_, ?_⟩
  · refine ⟨(N / 2, N / 2), ⟨?_, ?_, (hc _ _).2 rfl⟩, ?_⟩
    · exact Nat.div_lt_self hN (by decide)
    · exact Nat.div_lt_self hN (by decide)
    · rintro ⟨r, c⟩ ⟨_, _, h⟩
      exact (hc r c).1 h
  · intro hash
    refine ⟨by rw [length_cells]; rfl, ?_⟩
    simp [generateIdenticon.cells, constructor, isCenter, List.range_succ, List.filter]

/-- C6 with grid size 5. -/
theorem center_cell_unique_witness :
    1 ≤ 5 ∧
    ∃! p : Nat × Nat, p.1 < 5 ∧ p.2 < 5 ∧
      isCenter (constructor (MathObj.mk Real.pi Real.cos Real.sin
        (fun b a => Complex.arg ⟨a, b⟩) Real.sqrt) [] ⟨200, 200⟩ 5) p.1 p.2 = true :=
  ⟨by decide,
    (center_cell_unique (MathObj.mk Real.pi Real.cos Real.sin
        (fun b a => Complex.arg ⟨a, b⟩) Real.sqrt) [] ⟨200, 200⟩ 5 (by decide)).2.1⟩

/-- C7. For grid size 5 a cell `(row, col)` with `row, col < 5` is in the
boundary set `triangleLimit` exactly when one of `row = 2`, `col = 2` holds and
not both; the set has 8 members, all different, contains `(0, 2)`, and contains
neither `(0, 0)` nor the center `(2, 2)`. -/
theorem triangleLimit_cross (Math : MathObj α) (input : JSString) (canvas : Canvas α) :
    (∀ row col, row < 5 → col < 5 →
      (inTriangleLimit (constructor Math input canvas 5) row col = true ↔
        Xor' (row = 2) (col = 2))) ∧
    (constructor Math input canvas 5).triangleLimit.length = 8 ∧
    (constructor Math input canvas 5).triangleLimit.Nodup ∧
    inTriangleLimit (constructor Math input canvas 5) 0 2 = true ∧
    inTriangleLimit (constructor Math input canvas 5) 0 0 = false ∧
    inTriangleLimit (constructor Math input canvas 5) 2 2 = false := by
  refine ⟨?_, rfl, by simp [constructor], rfl, rfl, rfl⟩
  intro row col hr hc
  have h : ∀ r, r < 5 → ∀ c, c < 5 →
      (([(0, 2), (1, 2), (2, 0), (2, 1), (2, 3), (2, 4), (3, 2), (4, 2)] :
        List (Nat × Nat)).any (fun p => p.1 == r && p.2 == c) = true ↔
        Xor' (r = 2) (c = 2)) := by decide
  exact h row hr col hc

/-- C7 at the cell `(1, 2)`. -/
theorem triangleLimit_cross_witness :
    (1 < 5 ∧ 2 < 5 ∧ Xor' (1 = 2) (2 = 2)) ∧
    inTriangleLimit (constructor (MathObj.mk Real.pi Real.cos Real.sin
      (fun b a => Complex.arg ⟨a, b⟩) Real.sqrt) [] ⟨200, 200⟩ 5) 1 2 = true :=
  ⟨⟨by decide, by decide, by decide⟩,
    ((triangleLimit_cross (MathObj.mk Real.pi Real.cos Real.sin
        (fun b a => Complex.arg ⟨a, b⟩) Real.sqrt) [] ⟨200, 200⟩).1 1 2
      (by decide) (by decide)).2 (by decide)⟩

end Identicon

/-! ## Grid sizes that overrun the digest -/

namespace Identicon

open JS

variable {α : Type} [Field α]

theorem substring_past_end (s : JSString) (i j : Nat) (hi : s.length ≤ i)
    (hj : s.length ≤ j) : substring s i j = [] := by
  have e₁ : min i s.length = s.length := by omega
  have e₂ : min j s.length = s.length := by omega
  simp [substring, e₁, e₂]

theorem getObjectFromHash_past_end (hash : JSString) (i : Nat)
    (h : hash.length ≤ i) : getObjectFromHash hash i = 0 := by
  unfold getObjectFromHash
  rw [substring_past_end hash i (i + 2) h (by omega)]
  rfl

/-- C8, as the code has it. The program compares no grid size with the
length of the digest. For a grid size `N < 2 ^ 32`, overrun or not, the
constructor returns an object with that grid size and the loops of
`generateIdenticon` visit all `N * N` cells; for a cell of the grid whose
object-key offset `(row * N + col) * 2` is at or past the end of the digest,
the object key read is 0: if the cell is not the center cell no shape is
drawn for it, and if it is the center cell a square is drawn for it. For a
grid size of `2 ^ 32` or more the constructor throws a `RangeError`, from
the allocation of the array `rotationAngles`. -/
theorem overrun_reads_zero (Math : MathObj α) (input : JSString) (canvas : Canvas α)
    (N : Nat) (hash : JSString) (row col : Nat) (hN : N < 2 ^ 32) (hrow : row < N)
    (hcol : col < N) (hover : hash.length ≤ (row * N + col) * 2) :
    let S := canvas.width / (N : α)
    let x := (col : α) * S + S / 2
    let y := (row : α) * S + S / 2
    Identicon.new Math input canvas N = .ok (constructor Math input canvas N) ∧
    (constructor Math input canvas N).gridSize = N ∧
    (generateIdenticon.cells Math (constructor Math input canvas N) hash).length = N * N ∧
    getObjectFromHash hash ((row * N + col) * 2) = 0 ∧
    (isCenter (constructor Math input canvas N) row col = false →
      ∀ calls, ((row, col), calls) ∈
          generateIdenticon.cells Math (constructor Math input canvas N) hash ↔
        calls = []) ∧
    (isCenter (constructor Math input canvas N) row col = true →
      ∀ calls, ((row, col), calls) ∈
          generateIdenticon.cells Math (constructor Math input canvas N) hash ↔
        calls = [DrawCall.drawSquare x y S (getColorFromHash hash 0)]) ∧
    (∀ M : Nat, 2 ^ 32 ≤ M →
      Identicon.new Math input canvas M = .error "RangeError: Invalid array length") := by
  intro S x y
  have hg : (constructor Math input canvas N).gridSize = N := rfl
  have hkey := getObjectFromHash_past_end hash _ hover
  refine ⟨?_, rfl, by rw [length_cells, hg], hkey, ?_, ?_, ?_⟩
  · simp only [Identicon.new, if_pos hN]
  · intro hcenter calls
    rw [mem_cells_iff]
    simp only [generateIdenticon.cell, hcenter, hg, hkey, hrow, hcol, true_and]
    simp
  · intro hcenter calls
    rw [mem_cells_iff]
    simp only [generateIdenticon.cell, hcenter, hg, hkey, hrow, hcol, true_and]
    simp [drawCenterShape, constructor, S, x, y]
  · intro M hM
    have hlt : ¬ M < 2 ^ 32 := by omega
    simp only [Identicon.new, if_neg hlt]

/-- C8, as the code has it, on the example digest with grid size 8: the
constructor returns, the cell `(7, 7)` is read at offset 126 and gets no shape
call. -/
theorem overrun_reads_zero_witness :
    (8 < 2 ^ 32 ∧ 7 < 8 ∧ exampleDigest.length ≤ (7 * 8 + 7) * 2 ∧
      isCenter (constructor (MathObj.mk Real.pi Real.cos Real.sin
        (fun b a => Complex.arg ⟨a, b⟩) Real.sqrt) [] ⟨200, 200⟩ 8) 7 7 = false) ∧
    Identicon.new (MathObj.mk Real.pi Real.cos Real.sin
        (fun b a => Complex.arg ⟨a, b⟩) Real.sqrt) [] ⟨200, 200⟩ 8 =
      .ok (constructor (MathObj.mk Real.pi Real.cos Real.sin
        (fun b a => Complex.arg ⟨a, b⟩) Real.sqrt) [] ⟨200, 200⟩ 8) ∧
    getObjectFromHash exampleDigest ((7 * 8 + 7) * 2) = 0 ∧
    ∀ calls : List (DrawCall ℝ), ((7, 7), calls) ∈
        generateIdenticon.cells (MathObj.mk Real.pi Real.cos Real.sin
            (fun b a => Complex.arg ⟨a, b⟩) Real.sqrt)
          (constructor (MathObj.mk Real.pi Real.cos Real.sin
            (fun b a => Complex.arg ⟨a, b⟩) Real.sqrt) [] ⟨200, 200⟩ 8) exampleDigest ↔
      calls = [] :=
  ⟨⟨by decide, by decide, by decide, rfl⟩,
    (overrun_reads_zero (MathObj.mk Real.pi Real.cos Real.sin
        (fun b a => Complex.arg ⟨a, b⟩) Real.sqrt) [] ⟨200, 200⟩ 8 exampleDigest 7 7
      (by decide) (by decide) (by decide) (by decide)).1,
    (overrun_reads_zero (MathObj.mk Real.pi Real.cos Real.sin
        (fun b a => Complex.arg ⟨a, b⟩) Real.sqrt) [] ⟨200, 200⟩ 8 exampleDigest 7 7
      (by decide) (by decide) (by decide) (by decide)).2.2.2.1,
    (overrun_reads_zero (MathObj.mk Real.pi Real.cos Real.sin
        (fun b a => Complex.arg ⟨a, b⟩) Real.sqrt) [] ⟨200, 200⟩ 8 exampleDigest 7 7
      (by decide) (by decide) (by decide) (by decide)).2.2.2.2.1 (by rfl)⟩

/-- C8 as stated fails. On a digest of 64 hexadecimal digits the grid size 8
has read offsets far past the end (`(8 * 8 - 1) * 2 + 2 = 128`); the
constructor returns an object with grid size 8 all the same, and the run of
`generateIdenticon` draws: a triangle for the cell `(0, 3)`, and a square for
the center cell `(4, 4)`, whose object key is read at offset
`(4 * 8 + 4) * 2 = 72`, past the end of the digest. -/
theorem overrun_not_rejected :
    exampleDigest.length = 64 ∧
    exampleDigest.length < (8 * 8 - 1) * 2 + 2 ∧
    Identicon.new (MathObj.mk Real.pi Real.cos Real.sin
        (fun b a => Complex.arg ⟨a, b⟩) Real.sqrt) [] ⟨200, 200⟩ 8 =
      .ok (constructor (MathObj.mk Real.pi Real.cos Real.sin
        (fun b a => Complex.arg ⟨a, b⟩) Real.sqrt) [] ⟨200, 200⟩ 8) ∧
    (constructor (MathObj.mk Real.pi Real.cos Real.sin
      (fun b a => Complex.arg ⟨a, b⟩) Real.sqrt) [] ⟨200, 200⟩ 8).gridSize = 8 ∧
    exampleDigest.length ≤ (4 * 8 + 4) * 2 ∧
    ((4, 4), [DrawCall.drawSquare (4 * (200 / 8) + 200 / 8 / 2)
        (4 * (200 / 8) + 200 / 8 / 2) (200 / 8) (getColorFromHash exampleDigest 0)]) ∈
      generateIdenticon.cells (MathObj.mk Real.pi Real.cos Real.sin
          (fun b a => Complex.arg ⟨a, b⟩) Real.sqrt)
        (constructor (MathObj.mk Real.pi Real.cos Real.sin
          (fun b a => Complex.arg ⟨a, b⟩) Real.sqrt) [] ⟨200, 200⟩ 8) exampleDigest ∧
    ∃ calls, calls ≠ [] ∧ ((0, 3), calls) ∈
      generateIdenticon.cells (MathObj.mk Real.pi Real.cos Real.sin
          (fun b a => Complex.arg ⟨a, b⟩) Real.sqrt)
        (constructor (MathObj.mk Real.pi Real.cos Real.sin
          (fun b a => Complex.arg ⟨a, b⟩) Real.sqrt) [] ⟨200, 200⟩ 8) exampleDigest := by
  have hk : getObjectFromHash exampleDigest 72 = 0 := by decide
  have hk3 : getObjectFromHash exampleDigest 6 = 1 := by decide
  have h8 : (8 : Nat) < 2 ^ 32 := by decide
  refine ⟨rfl, by decide, ?_, rfl, by decide, ?_, ?_⟩
  · simp only [Identicon.new, if_pos h8]
  · rw [mem_cells_iff]
    simp [generateIdenticon.cell, constructor, isCenter, drawCenterShape, hk]
  · refine ⟨_, ?_, (mem_cells_iff _ _ _ _ _ _).2 ⟨by decide, by decide, rfl⟩⟩
    simp [generateIdenticon.cell, constructor, isCenter, inTriangleLimit, hk3]

end Identicon

/-! ## The triangles: theorems over the real numbers -/

namespace Identicon

open JS

theorem sqDist_polar_center (x y R a : ℝ) :
    sqDist (x + R * Real.cos a, y + R * Real.sin a) (x, y) = R ^ 2 := by
  simp only [sqDist]
  linear_combination R ^ 2 * Real.cos_sq_add_sin_sq a

theorem sqDist_polar (x y R a b : ℝ) :
    sqDist (x + R * Real.cos a, y + R * Real.sin a)
        (x + R * Real.cos b, y + R * Real.sin b) =
      R ^ 2 * (2 - 2 * Real.cos (a - b)) := by
  simp only [sqDist, Real.cos_sub]
  linear_combination R ^ 2 * Real.cos_sq_add_sin_sq a + R ^ 2 * Real.cos_sq_add_sin_sq b

theorem cos_two_pi_div_three : Real.cos (2 * Real.pi / 3) = -(1 / 2) := by
  have h : 2 * Real.pi / 3 = Real.pi - Real.pi / 3 := by ring
  rw [h, Real.cos_pi_sub, Real.cos_pi_div_three]

theorem cos_four_pi_div_three : Real.cos (4 * Real.pi / 3) = -(1 / 2) := by
  have h : 4 * Real.pi / 3 = Real.pi / 3 + Real.pi := by ring
  rw [h, Real.cos_add_pi, Real.cos_pi_div_three]

theorem cos_five_pi_div_three : Real.cos (5 * Real.pi / 3) = 1 / 2 := by
  have h : 5 * Real.pi / 3 = 2 * Real.pi - Real.pi / 3 := by ring
  rw [h, Real.cos_two_pi_sub, Real.cos_pi_div_three]

theorem sqrt_three_mul_sq (R : ℝ) :
    Real.sqrt (R ^ 2 * 3) = |R| * Real.sqrt 3 := by
  rw [Real.sqrt_mul (sq_nonneg R), Real.sqrt_sq_eq_abs]

end Identicon

/-! ## The interior effect-triangle -/

namespace Identicon

open JS

theorem effectTriangle_vertices_polar (atan2 : ℝ → ℝ → ℝ) (sqrt : ℝ → ℝ)
    (color : JSString) (x y size rotation : ℝ) :
    CanvasOp.vertices (drawEffectTriangle ⟨Real.pi, Real.cos, Real.sin, atan2, sqrt⟩
      x y size color rotation) =
    [(x + size / 2 * Real.cos (rotation + Real.pi),
        y + size / 2 * Real.sin (rotation + Real.pi)),
     (x + size / 2 * Real.cos (rotation + 2 * Real.pi / 3),
        y + size / 2 * Real.sin (rotation + 2 * Real.pi / 3)),
     (x + size / 2 * Real.cos (rotation - 2 * Real.pi / 3),
        y + size / 2 * Real.sin (rotation - 2 * Real.pi / 3))] := by
  have h2 : Real.pi * 2 / 3 = 2 * Real.pi / 3 := by ring
  simp only [drawEffectTriangle, CanvasOp.vertices, h2, Real.cos_add_pi, Real.sin_add_pi]
  simp only [mul_neg, sub_eq_add_neg]

theorem effectTriangle_sqDist (x y R rotation : ℝ) :
    sqDist (x + R * Real.cos (rotation + Real.pi), y + R * Real.sin (rotation + Real.pi))
      (x + R * Real.cos (rotation + 2 * Real.pi / 3),
        y + R * Real.sin (rotation + 2 * Real.pi / 3)) = R ^ 2 ∧
    sqDist (x + R * Real.cos (rotation + Real.pi), y + R * Real.sin (rotation + Real.pi))
      (x + R * Real.cos (rotation - 2 * Real.pi / 3),
        y + R * Real.sin (rotation - 2 * Real.pi / 3)) = R ^ 2 ∧
    sqDist (x + R * Real.cos (rotation + 2 * Real.pi / 3),
        y + R * Real.sin (rotation + 2 * Real.pi / 3))
      (x + R * Real.cos (rotation - 2 * Real.pi / 3),
        y + R * Real.sin (rotation - 2 * Real.pi / 3)) = R ^ 2 * 3 := by
  have e₁ : Real.cos (rotation + Real.pi - (rotation + 2 * Real.pi / 3)) = 1 / 2 := by
    have h : rotation + Real.pi - (rotation + 2 * Real.pi / 3) = Real.pi / 3 := by ring
    rw [h, Real.cos_pi_div_three]
  have e₂ : Real.cos (rotation + Real.pi - (rotation - 2 * Real.pi / 3)) = 1 / 2 := by
    have h : rotation + Real.pi - (rotation - 2 * Real.pi / 3) = 5 * Real.pi / 3 := by ring
    rw [h, cos_five_pi_div_three]
  have e₃ : Real.cos (rotation + 2 * Real.pi / 3 - (rotation - 2 * Real.pi / 3)) =
      -(1 / 2) := by
    have h : rotation + 2 * Real.pi / 3 - (rotation - 2 * Real.pi / 3) =
        4 * Real.pi / 3 := by ring
    rw [h, cos_four_pi_div_three]
  refine ⟨?_, ?_, ?_⟩
  · rw [sqDist_polar, e₁]; ring
  · rw [sqDist_polar, e₂]; ring
  · rw [sqDist_polar, e₃]; ring

/-- C9, as the code has it. For real `x`, `y`, `size` and `rotation`, the
vertices that `drawEffectTriangle` gives to the context are the points at the
angles `rotation + π`, `rotation + 2π/3` and `rotation - 2π/3` of the circle of
radius `|size| / 2` around `(x, y)`. Every vertex is at distance `|size| / 2`
from `(x, y)`. The first vertex is at distance `|size| / 2` from each of the
other two, which are at distance `|size| · √3 / 2` from one another: the
triangle is isosceles. -/
theorem drawEffectTriangle_isosceles (atan2 : ℝ → ℝ → ℝ) (sqrt : ℝ → ℝ)
    (color : JSString) (x y size rotation : ℝ) :
    let v₁ : ℝ × ℝ := (x + size / 2 * Real.cos (rotation + Real.pi),
      y + size / 2 * Real.sin (rotation + Real.pi))
    let v₂ : ℝ × ℝ := (x + size / 2 * Real.cos (rotation + 2 * Real.pi / 3),
      y + size / 2 * Real.sin (rotation + 2 * Real.pi / 3))
    let v₃ : ℝ × ℝ := (x + size / 2 * Real.cos (rotation - 2 * Real.pi / 3),
      y + size / 2 * Real.sin (rotation - 2 * Real.pi / 3))
    CanvasOp.vertices (drawEffectTriangle ⟨Real.pi, Real.cos, Real.sin, atan2, sqrt⟩
      x y size color rotation) = [v₁, v₂, v₃] ∧
    Real.sqrt (sqDist v₁ (x, y)) = |size| / 2 ∧
    Real.sqrt (sqDist v₂ (x, y)) = |size| / 2 ∧
    Real.sqrt (sqDist v₃ (x, y)) = |size| / 2 ∧
    Real.sqrt (sqDist v₁ v₂) = |size| / 2 ∧
    Real.sqrt (sqDist v₁ v₃) = |size| / 2 ∧
    Real.sqrt (sqDist v₂ v₃) = |size| * Real.sqrt 3 / 2 := by
  intro v₁ v₂ v₃
  have habs : |size / 2| = |size| / 2 := by
    rw [abs_div, abs_of_pos (by norm_num : (0 : ℝ) < 2)]
  obtain ⟨s₁₂, s₁₃, s₂₃⟩ := effectTriangle_sqDist x y (size / 2) rotation
  refine ⟨effectTriangle_vertices_polar atan2 sqrt color x y size rotation,
    ?_, ?_, ?_, ?_, ?_, ?_⟩
  · rw [sqDist_polar_center, Real.sqrt_sq_eq_abs, habs]
  · rw [sqDist_polar_center, Real.sqrt_sq_eq_abs, habs]
  · rw [sqDist_polar_center, Real.sqrt_sq_eq_abs, habs]
  · rw [s₁₂, Real.sqrt_sq_eq_abs, habs]
  · rw [s₁₃, Real.sqrt_sq_eq_abs, habs]
  · rw [s₂₃, sqrt_three_mul_sq, habs]; ring

/-- C9 as stated fails. With `x = y = 0`, `size = 2` and `rotation = 0` the
claim's first vertex is `(1, 0)`, the point at angle `rotation`; the first
vertex that `drawEffectTriangle` gives to the context is `(-1, 0)`. The three
vertices are not those of the claim, and the triangle is not equilateral: its
first two vertices are at distance 1, its last two at distance `√3`. -/
theorem drawEffectTriangle_not_at_rotation :
    CanvasOp.vertices (drawEffectTriangle
        ⟨Real.pi, Real.cos, Real.sin, fun b a => Complex.arg ⟨a, b⟩, Real.sqrt⟩
        0 0 2 [] 0) ≠
      [(0 + 2 / 2 * Real.cos 0, 0 + 2 / 2 * Real.sin 0),
       (0 + 2 / 2 * Real.cos (0 + 2 * Real.pi / 3),
          0 + 2 / 2 * Real.sin (0 + 2 * Real.pi / 3)),
       (0 + 2 / 2 * Real.cos (0 - 2 * Real.pi / 3),
          0 + 2 / 2 * Real.sin (0 - 2 * Real.pi / 3))] ∧
    ((0 + 2 / 2 * Real.cos 0, 0 + 2 / 2 * Real.sin 0) : ℝ × ℝ) = (1, 0) ∧
    (CanvasOp.vertices (drawEffectTriangle
        ⟨Real.pi, Real.cos, Real.sin, fun b a => Complex.arg ⟨a, b⟩, Real.sqrt⟩
        0 0 2 [] 0)).head? = some (-1, 0) ∧
    ∃ v₁ v₂ v₃ : ℝ × ℝ,
      CanvasOp.vertices (drawEffectTriangle
        ⟨Real.pi, Real.cos, Real.sin, fun b a => Complex.arg ⟨a, b⟩, Real.sqrt⟩
        0 0 2 [] 0) = [v₁, v₂, v₃] ∧
      Real.sqrt (sqDist v₁ v₂) = 1 ∧ Real.sqrt (sqDist v₂ v₃) = Real.sqrt 3 := by
  have hhead : (CanvasOp.vertices (drawEffectTriangle
        ⟨Real.pi, Real.cos, Real.sin, fun b a => Complex.arg ⟨a, b⟩, Real.sqrt⟩
        0 0 2 [] 0)).head? = some (-1, 0) := by
    simp [drawEffectTriangle, CanvasOp.vertices]
  refine ⟨?_, by simp, hhead, ?_⟩
  · intro h
    rw [h] at hhead
    simp only [List.head?_cons, Option.some.injEq, Prod.mk.injEq] at hhead
    norm_num at hhead
  · obtain ⟨s₁₂, _, s₂₃⟩ := effectTriangle_sqDist 0 0 (2 / 2) 0
    refine ⟨_, _, _, effectTriangle_vertices_polar _ _ _ 0 0 2 0, ?_, ?_⟩
    · rw [s₁₂]; norm_num
    · rw [s₂₃]; norm_num

end Identicon

/-! ## The boundary triangle -/

namespace Identicon

open JS

/-- C10. For real `x`, `y`, `rotation` and `size > 0`, the vertices that
`drawTriangle` gives to the context are the points at the angles
`rotation + π`, `rotation + 5π/3` and `rotation - 5π/3` of the circle of
radius `size / 2` around `(x, y)`: each is at distance `size / 2` from
`(x, y)`, and any two of them are at distance `size · √3 / 2`. -/
theorem drawTriangle_equilateral (atan2 : ℝ → ℝ → ℝ) (sqrt : ℝ → ℝ)
    (color : JSString) (x y rotation size : ℝ) (hsize : 0 < size) :
    let v₁ : ℝ × ℝ := (x + size / 2 * Real.cos (rotation + Real.pi),
      y + size / 2 * Real.sin (rotation + Real.pi))
    let v₂ : ℝ × ℝ := (x + size / 2 * Real.cos (rotation + 5 * Real.pi / 3),
      y + size / 2 * Real.sin (rotation + 5 * Real.pi / 3))
    let v₃ : ℝ × ℝ := (x + size / 2 * Real.cos (rotation - 5 * Real.pi / 3),
      y + size / 2 * Real.sin (rotation - 5 * Real.pi / 3))
    CanvasOp.vertices (drawTriangle ⟨Real.pi, Real.cos, Real.sin, atan2, sqrt⟩
      x y size color rotation) = [v₁, v₂, v₃] ∧
    Real.sqrt (sqDist v₁ (x, y)) = size / 2 ∧
    Real.sqrt (sqDist v₂ (x, y)) = size / 2 ∧
    Real.sqrt (sqDist v₃ (x, y)) = size / 2 ∧
    Real.sqrt (sqDist v₁ v₂) = size * Real.sqrt 3 / 2 ∧
    Real.sqrt (sqDist v₂ v₃) = size * Real.sqrt 3 / 2 ∧
    Real.sqrt (sqDist v₃ v₁) = size * Real.sqrt 3 / 2 := by
  intro v₁ v₂ v₃
  have hR : (0 : ℝ) ≤ size / 2 := by positivity
  have habs : |size / 2| * Real.sqrt 3 = size * Real.sqrt 3 / 2 := by
    rw [abs_of_nonneg hR]; ring
  have e₁ : Real.cos (rotation + Real.pi - (rotation + 5 * Real.pi / 3)) = -(1 / 2) := by
    have h : rotation + Real.pi - (rotation + 5 * Real.pi / 3) = -(2 * Real.pi / 3) := by
      ring
    rw [h, Real.cos_neg, cos_two_pi_div_three]
  have e₂ : Real.cos (rotation + 5 * Real.pi / 3 - (rotation - 5 * Real.pi / 3)) =
      -(1 / 2) := by
    have h : rotation + 5 * Real.pi / 3 - (rotation - 5 * Real.pi / 3) =
        4 * Real.pi / 3 + 2 * Real.pi := by ring
    rw [h, Real.cos_add_two_pi, cos_four_pi_div_three]
  have e₃ : Real.cos (rotation - 5 * Real.pi / 3 - (rotation + Real.pi)) = -(1 / 2) := by
    have h : rotation - 5 * Real.pi / 3 - (rotation + Real.pi) =
        -(2 * Real.pi / 3 + 2 * Real.pi) := by ring
    rw [h, Real.cos_neg, Real.cos_add_two_pi, cos_two_pi_div_three]
  have side : ∀ a b : ℝ, Real.cos (a - b) = -(1 / 2) →
      Real.sqrt (sqDist (x + size / 2 * Real.cos a, y + size / 2 * Real.sin a)
        (x + size / 2 * Real.cos b, y + size / 2 * Real.sin b)) =
      size * Real.sqrt 3 / 2 := by
    intro a b hab
    rw [sqDist_polar, hab, ← habs, ← sqrt_three_mul_sq]
    congr 1
    ring
  refine ⟨?_, ?_, ?_, ?_, side _ _ e₁, side _ _ e₂, side _ _ e₃⟩
  · have h5 : Real.pi * 5 / 3 = 5 * Real.pi / 3 := by ring
    simp only [drawTriangle, CanvasOp.vertices, h5, v₁, v₂, v₃]
  · rw [sqDist_polar_center, Real.sqrt_sq hR]
  · rw [sqDist_polar_center, Real.sqrt_sq hR]
  · rw [sqDist_polar_center, Real.sqrt_sq hR]

/-- C10 with `x = y = rotation = 0` and `size = 2`. -/
theorem drawTriangle_equilateral_witness :
    (0 : ℝ) < 2 ∧
    Real.sqrt (sqDist
      ((0 : ℝ) + 2 / 2 * Real.cos (0 + Real.pi), (0 : ℝ) + 2 / 2 * Real.sin (0 + Real.pi))
      (0 + 2 / 2 * Real.cos (0 + 5 * Real.pi / 3),
        0 + 2 / 2 * Real.sin (0 + 5 * Real.pi / 3))) = 2 * Real.sqrt 3 / 2 :=
  ⟨by norm_num,
    (drawTriangle_equilateral (fun b a => Complex.arg ⟨a, b⟩) Real.sqrt [] 0 0 0 2
      (by norm_num)).2.2.2.2.1⟩

end Identicon

/-! ## Determinism -/

namespace Identicon

open JS

variable {α : Type} [Field α]

/-- The loop body in terms of the named values it computes. -/
theorem cell_eq_values (Math : MathObj α) (self : Identicon α) (hash : JSString)
    (centerColor triangleColor effectTriangleColor : JSString) (row col : Nat) :
    generateIdenticon.cell Math self hash centerColor triangleColor
        effectTriangleColor row col =
      if isCenter self row col then
        drawCenterShape self (generateIdenticon.x self col) (generateIdenticon.y self row)
          centerColor (generateIdenticon.objectKey self hash row col)
      else
        match generateIdenticon.objectKey self hash row col with
        | 0 => []
        | 1 =>
          if inTriangleLimit self row col then
            [.drawTriangle (generateIdenticon.x self col) (generateIdenticon.y self row)
              self.cellSize triangleColor (generateIdenticon.rotation Math self row col)]
          else
            [.drawEffectTriangle (generateIdenticon.x self col)
              (generateIdenticon.y self row) self.cellSize effectTriangleColor
              (generateIdenticon.rotation Math self row col)]
        | _ => [] :=
  rfl

/-- The drawing after the digest reads no field of the object that depends
on the input text. -/
theorem draw_input_irrelevant (Math : MathObj α) (s₁ s₂ : JSString) (canvas : Canvas α)
    (N : Nat) (hash : JSString) :
    generateIdenticon.draw Math (constructor Math s₁ canvas N) hash =
      generateIdenticon.draw Math (constructor Math s₂ canvas N) hash :=
  rfl

theorem onInput_eq (Math : MathObj α) (digest : JSString → List Nat)
    (canvas : Canvas α) (value : JSString) :
    onInput Math digest canvas value =
      generateIdenticon Math digest (constructor Math value canvas defaultGridSize) := by
  have h5 : defaultGridSize < 2 ^ 32 := by decide
  simp only [onInput, Identicon.new, if_pos h5]

theorem isRadixDigit_hexDigit :
    ∀ d, d < 16 → isRadixDigit 16
      (if d < 10 then Char.ofNat (48 + d) else Char.ofNat (87 + d)) = true := by
  decide

/-- The hexadecimal writing of 32 bytes is a digest of 64 hexadecimal
digits. -/
theorem isHexDigest_generateHash {β : Type} (digest : JSString → List Nat)
    (self : Identicon β)
    (hlen : (digest self.input).length = 32) :
    isHexDigest (generateHash digest self) = true := by
  simp only [isHexDigest, Bool.and_eq_true, beq_iff_eq, List.all_eq_true]
  constructor
  · simp [generateHash, List.length_flatten, Function.comp_def, hlen]
  · intro c hc
    simp only [generateHash, List.mem_flatten, List.mem_map] at hc
    obtain ⟨l, ⟨b, _, rfl⟩, hc⟩ := hc
    simp only [List.mem_cons, List.mem_singleton, List.not_mem_nil, or_false] at hc
    rcases hc with rfl | rfl
    · exact isRadixDigit_hexDigit _ (by omega)
    · exact isRadixDigit_hexDigit _ (by omega)

/-- On a digest of 64 hexadecimal digits the palette colours are written `#`
and six hexadecimal digits. -/
theorem isHexColor_getColorFromHash (hash : JSString) (i : Nat)
    (hhash : isHexDigest hash = true) (hi : i + 6 ≤ 64) :
    isHexColor (getColorFromHash hash i) = true := by
  simp only [isHexDigest, Bool.and_eq_true, beq_iff_eq, List.all_eq_true] at hhash
  obtain ⟨hlen, hall⟩ := hhash
  have e₁ : min i hash.length = i := by omega
  have e₂ : min (i + 6) hash.length = i + 6 := by omega
  simp only [getColorFromHash, isHexColor, JS.slice, e₁, e₂, Nat.add_sub_cancel_left,
    Bool.and_eq_true, beq_iff_eq, List.all_eq_true, List.length_take, List.length_drop]
  refine ⟨⟨trivial, by omega⟩, ?_⟩
  intro c hc
  exact hall c (List.mem_of_mem_drop (List.mem_of_mem_take hc))

/-- The colour of every call of the loop body is one of the palette. -/
theorem color_mem_palette (Math : MathObj α) (self : Identicon α) (hash : JSString)
    (cc tc ec : JSString) (row col : Nat) (call : DrawCall α)
    (hcall : call ∈ generateIdenticon.cell Math self hash cc tc ec row col) :
    call.color = cc ∨ call.color = tc ∨ call.color = ec := by
  rw [cell_eq_values] at hcall
  rcases getObjectFromHash_zero_or_one hash
      (generateIdenticon.objectIndex self row col) with h | h <;>
    simp only [generateIdenticon.objectKey, h] at hcall <;>
    by_cases hc : isCenter self row col = true <;>
    by_cases hl : inTriangleLimit self row col = true <;>
    simp [hc, hl, drawCenterShape] at hcall <;>
    subst hcall <;> simp [DrawCall.color]

end Identicon

/-! ### The bitmap after a run -/

namespace Identicon

open JS

variable {α : Type} [Field α] [DecidableEq α]

theorem execAll_append (validColor : JSString → Bool) (canvas : Canvas α)
    (st : ContextState α) (ops₁ ops₂ : List (CanvasOp α)) :
    CanvasOp.execAll validColor canvas st (ops₁ ++ ops₂) =
      CanvasOp.execAll validColor canvas
        (CanvasOp.execAll validColor canvas st ops₁) ops₂ := by
  simp only [CanvasOp.execAll, List.foldl_append]

/-- A call of a shape method with a valid colour adds to the bitmap a mark that
does not depend on the fill style nor on the path that the context had. -/
theorem run_bitmap_congr (Math : MathObj α) (validColor : JSString → Bool)
    (canvas : Canvas α) (call : DrawCall α) (hvalid : validColor call.color = true)
    (st₁ st₂ : ContextState α) (h : st₁.bitmap = st₂.bitmap) :
    (CanvasOp.execAll validColor canvas st₁ (DrawCall.run Math call)).bitmap =
      (CanvasOp.execAll validColor canvas st₂ (DrawCall.run Math call)).bitmap := by
  cases call <;> simp only [DrawCall.color] at hvalid <;>
    simp [DrawCall.run, drawSquare, drawCircle, drawDiamond, drawOctagon, drawTriangle,
      drawEffectTriangle, CanvasOp.execAll, CanvasOp.exec, hvalid, h, List.range_succ]

theorem calls_bitmap_congr (Math : MathObj α) (validColor : JSString → Bool)
    (canvas : Canvas α) (calls : List (DrawCall α))
    (hvalid : ∀ call ∈ calls, validColor call.color = true)
    (st₁ st₂ : ContextState α) (h : st₁.bitmap = st₂.bitmap) :
    (CanvasOp.execAll validColor canvas st₁ (calls.flatMap (DrawCall.run Math))).bitmap =
      (CanvasOp.execAll validColor canvas st₂
        (calls.flatMap (DrawCall.run Math))).bitmap := by
  induction calls generalizing st₁ st₂ with
  | nil => simpa [CanvasOp.execAll] using h
  | cons call rest ih =>
    rw [List.flatMap_cons, execAll_append, execAll_append]
    exact ih (fun c hc => hvalid c (List.mem_cons_of_mem _ hc)) _ _
      (run_bitmap_congr Math validColor canvas call
        (hvalid call (List.mem_cons_self _ _)) st₁ st₂ h)

theorem records_bitmap_congr (Math : MathObj α) (validColor : JSString → Bool)
    (canvas : Canvas α) (records : List ((Nat × Nat) × List (DrawCall α)))
    (hvalid : ∀ e ∈ records, ∀ call ∈ e.2, validColor call.color = true)
    (st₁ st₂ : ContextState α) (h : st₁.bitmap = st₂.bitmap) :
    (CanvasOp.execAll validColor canvas st₁
        (records.flatMap fun cell => cell.2.flatMap (DrawCall.run Math))).bitmap =
      (CanvasOp.execAll validColor canvas st₂
        (records.flatMap fun cell => cell.2.flatMap (DrawCall.run Math))).bitmap := by
  induction records generalizing st₁ st₂ with
  | nil => simpa [CanvasOp.execAll] using h
  | cons e rest ih =>
    rw [List.flatMap_cons, execAll_append, execAll_append]
    exact ih (fun e' he' => hvalid e' (List.mem_cons_of_mem _ he')) _ _
      (calls_bitmap_congr Math validColor canvas e.2
        (hvalid e (List.mem_cons_self _ _)) st₁ st₂ h)

/-- The bitmap after the drawing of a run on a digest of 64 hexadecimal digits
does not depend on the state in which the run found the context. -/
theorem draw_bitmap_congr (Math : MathObj α) (validColor : JSString → Bool)
    (self : Identicon α) (hash : JSString) (hhash : isHexDigest hash = true)
    (hcss : ∀ c, isHexColor c = true → validColor c = true)
    (st₁ st₂ : ContextState α) :
    (CanvasOp.execAll validColor self.canvas st₁
        (generateIdenticon.draw Math self hash)).bitmap =
      (CanvasOp.execAll validColor self.canvas st₂
        (generateIdenticon.draw Math self hash)).bitmap := by
  have hvalid : ∀ e ∈ generateIdenticon.cells Math self hash, ∀ call ∈ e.2,
      validColor call.color = true := by
    rintro ⟨⟨row, col⟩, calls⟩ he call hcall
    rw [mem_cells_iff] at he
    obtain ⟨_, _, rfl⟩ := he
    rcases color_mem_palette Math self hash _ _ _ row col call hcall with h | h | h <;>
      rw [h] <;> apply hcss <;>
      exact isHexColor_getColorFromHash hash _ hhash (by decide)
  simp only [generateIdenticon.draw, CanvasOp.execAll, List.foldl_cons]
  apply records_bitmap_congr Math validColor self.canvas _ hvalid
  simp [CanvasOp.exec]

/-- C11. The context operations of `generateIdenticon` are a function of the
digest, the grid size and the dimensions of the canvas only: two runs on
inputs with the same digest (so two runs on the same input), with the same
grid size, on canvases of the same width and height, perform the same
operations in the same order, and one function `F` of the hexadecimal digest,
the grid size, the width and the height gives the operations of every run.
No state of the context passes from one run to another: with a digest of 32
bytes, and a platform on which `#` and six hexadecimal digits is a colour, the
bitmap after a run is the same whatever fill style, path and bitmap the run
found. So after a session, with any values of the earlier events and any
order in which their runs reached the context, the bitmap is the one that the
last run alone leaves on a fresh canvas of the same dimensions. -/
theorem generateIdenticon_deterministic (Math : MathObj α)
    (digest : JSString → List Nat) (validColor : JSString → Bool)
    (canvas₁ canvas₂ : Canvas α) (N : Nat)
    (s₁ s₂ : JSString) (hw : canvas₁.width = canvas₂.width)
    (hh : canvas₁.height = canvas₂.height) (hd : digest s₁ = digest s₂)
    (hlen : (digest s₁).length = 32)
    (hcss : ∀ c, isHexColor c = true → validColor c = true) :
    generateIdenticon Math digest (constructor Math s₁ canvas₁ N) =
      generateIdenticon Math digest (constructor Math s₂ canvas₂ N) ∧
    (∃ F : JSString → Nat → α → α → List (CanvasOp α),
      ∀ (s : JSString) (canvas : Canvas α) (M : Nat),
        generateIdenticon Math digest (constructor Math s canvas M) =
          F (generateHash digest (constructor Math s canvas M)) M
            canvas.width canvas.height) ∧
    (∀ st₁ st₂ : ContextState α,
      (CanvasOp.execAll validColor canvas₁ st₁
          (generateIdenticon Math digest (constructor Math s₁ canvas₁ N))).bitmap =
        (CanvasOp.execAll validColor canvas₂ st₂
          (generateIdenticon Math digest (constructor Math s₂ canvas₂ N))).bitmap) ∧
    (∀ (values : List JSString) (order : List Nat) (st₀ : ContextState α),
      (CanvasOp.execAll validColor canvas₁ st₀
          ((session Math digest canvas₁ values order).flatten ++
            onInput Math digest canvas₁ s₁)).bitmap =
        (CanvasOp.execAll validColor canvas₂ ContextState.initial
          (onInput Math digest canvas₂ s₂)).bitmap) := by
  have hc : canvas₁ = canvas₂ := by
    cases canvas₁; cases canvas₂; simp_all
  subst hc
  have hrun : ∀ M : Nat, generateIdenticon Math digest (constructor Math s₁ canvas₁ M) =
      generateIdenticon Math digest (constructor Math s₂ canvas₁ M) := by
    intro M
    have hgM : generateHash digest (constructor Math s₁ canvas₁ M) =
        generateHash digest (constructor Math s₂ canvas₁ M) := by
      simp only [generateHash, constructor, hd]
    simp only [generateIdenticon, hgM]
    exact draw_input_irrelevant Math s₁ s₂ canvas₁ M _
  have hstate : ∀ (M : Nat) (st₁ st₂ : ContextState α),
      (CanvasOp.execAll validColor canvas₁ st₁
          (generateIdenticon Math digest (constructor Math s₁ canvas₁ M))).bitmap =
        (CanvasOp.execAll validColor canvas₁ st₂
          (generateIdenticon Math digest (constructor Math s₁ canvas₁ M))).bitmap := by
    intro M st₁ st₂
    exact draw_bitmap_congr Math validColor (constructor Math s₁ canvas₁ M) _
      (isHexDigest_generateHash digest _ hlen) hcss st₁ st₂
  refine ⟨hrun N, ?_, ?_, ?_⟩
  · refine ⟨fun hash M w h =>
      generateIdenticon.draw Math (constructor Math [] ⟨w, h⟩ M) hash, ?_⟩
    intro s canvas M
    exact draw_input_irrelevant Math s [] canvas M _
  · intro st₁ st₂
    rw [← hrun N]
    exact hstate N st₁ st₂
  · intro values order st₀
    rw [execAll_append, onInput_eq, onInput_eq, ← hrun defaultGridSize]
    exact hstate defaultGridSize _ _

/-- C11 on the empty input, with a digest function that gives the empty input
its SHA-256 digest, on canvases of 200 by 200: after a session in which a run
on another value reached the context first, the bitmap is the one that the run
on the empty input leaves on a fresh canvas. -/
theorem generateIdenticon_deterministic_witness :
    ((200 : ℝ) = 200 ∧
      (fun _ : JSString => exampleDigestBytes) [] =
        (fun _ : JSString => exampleDigestBytes) [] ∧
      ((fun _ : JSString => exampleDigestBytes) []).length = 32 ∧
      ∀ c, isHexColor c = true → isHexColor c = true) ∧
    (CanvasOp.execAll isHexColor (⟨200, 200⟩ : Canvas ℝ) ContextState.initial
        ((session (MathObj.mk Real.pi Real.cos Real.sin
            (fun b a => Complex.arg ⟨a, b⟩) Real.sqrt) (fun _ => exampleDigestBytes)
            ⟨200, 200⟩ ["a".toList] [0]).flatten ++
          onInput (MathObj.mk Real.pi Real.cos Real.sin
            (fun b a => Complex.arg ⟨a, b⟩) Real.sqrt) (fun _ => exampleDigestBytes)
            ⟨200, 200⟩ [])).bitmap =
      (CanvasOp.execAll isHexColor (⟨200, 200⟩ : Canvas ℝ) ContextState.initial
        (onInput (MathObj.mk Real.pi Real.cos Real.sin
          (fun b a => Complex.arg ⟨a, b⟩) Real.sqrt) (fun _ => exampleDigestBytes)
          ⟨200, 200⟩ [])).bitmap :=
  ⟨⟨rfl, rfl, rfl, fun _ h => h⟩,
    (generateIdenticon_deterministic (MathObj.mk Real.pi Real.cos Real.sin
        (fun b a => Complex.arg ⟨a, b⟩) Real.sqrt) (fun _ => exampleDigestBytes)
      isHexColor ⟨200, 200⟩ ⟨200, 200⟩ 5 [] [] rfl rfl rfl rfl (fun _ h => h)).2.2.2
      ["a".toList] [0] ContextState.initial⟩

end Identicon

/-! ## The offsets read and the keys -/

namespace Identicon

open JS

variable {α : Type} [Field α]

theorem mem_reads_iff {β : Type} (self : Identicon β) (i : Nat) :
    i ∈ generateIdenticon.reads self ↔
      ∃ row, row < self.gridSize ∧ ∃ col, col < self.gridSize ∧
        (i = (row * self.gridSize + col) * 2 ∨
          i = (row * self.gridSize + col) * 2 + 2) := by
  simp [generateIdenticon.reads, generateIdenticon.objectIndex,
    generateIdenticon.colorIndex, List.mem_flatMap]

theorem substring_hexPair_of_isHexDigest (hash : JSString) (i : Nat)
    (hhash : isHexDigest hash = true) (hi : i ≤ 62) :
    ∃ c₁ c₂, substring hash i (i + 2) = [c₁, c₂] ∧
      isRadixDigit 16 c₁ = true ∧ isRadixDigit 16 c₂ = true := by
  simp only [isHexDigest, Bool.and_eq_true, beq_iff_eq, List.all_eq_true] at hhash
  obtain ⟨hlen, hall⟩ := hhash
  have h₁ : i < hash.length := by omega
  have h₂ : i + 1 < hash.length := by omega
  refine ⟨hash[i], hash[i + 1], ?_, hall _ (List.getElem_mem h₁),
    hall _ (List.getElem_mem h₂)⟩
  exact substring_pair hash i _ _ (List.getElem?_eq_getElem h₁)
    (List.getElem?_eq_getElem h₂)

/-- C12. On a digest of 64 characters and for a grid size `N ≥ 1`, all the
offsets that `generateIdenticon` gives to `getObjectFromHash` (for the object
key and for the colour key of every cell) are at most `62 = length - 2`
exactly when `N ≤ 5`. With `N = 5` the largest offset read is 50, and on a
digest of 64 hexadecimal digits every read is of two hexadecimal digits. -/
theorem reads_in_range_iff (Math : MathObj α) (input : JSString) (canvas : Canvas α)
    (hash : JSString) (N : Nat) (hlen : hash.length = 64) (hN : 1 ≤ N) :
    ((∀ i ∈ generateIdenticon.reads (constructor Math input canvas N),
        i ≤ hash.length - 2) ↔ N ≤ 5) ∧
    hash.length - 2 = 62 ∧
    50 ∈ generateIdenticon.reads (constructor Math input canvas 5) ∧
    (∀ i ∈ generateIdenticon.reads (constructor Math input canvas 5), i ≤ 50) ∧
    (isHexDigest hash = true →
      ∀ i ∈ generateIdenticon.reads (constructor Math input canvas 5),
        ∃ c₁ c₂, substring hash i (i + 2) = [c₁, c₂] ∧
          isRadixDigit 16 c₁ = true ∧ isRadixDigit 16 c₂ = true) := by
  have hg : ∀ M, (constructor Math input canvas M).gridSize = M := fun _ => rfl
  have h50 : ∀ i ∈ generateIdenticon.reads (constructor Math input canvas 5), i ≤ 50 := by
    intro i hi
    rw [mem_reads_iff, hg] at hi
    obtain ⟨row, hrow, col, hcol, h | h⟩ := hi <;> omega
  refine ⟨?_, by omega, ?_, h50, ?_⟩
  · rw [hlen]
    constructor
    · intro hall
      by_contra hcon
      have h6 : 6 ≤ N := by omega
      have hmem : ((N - 1) * N + (N - 1)) * 2 + 2 ∈
          generateIdenticon.reads (constructor Math input canvas N) := by
        rw [mem_reads_iff, hg]
        exact ⟨N - 1, by omega, N - 1, by omega, Or.inr rfl⟩
      have hle := hall _ hmem
      have hmul : 5 * 6 ≤ (N - 1) * N := Nat.mul_le_mul (by omega) h6
      omega
    · intro h5 i hi
      rw [mem_reads_iff, hg] at hi
      obtain ⟨row, hrow, col, hcol, h⟩ := hi
      have hmul : row * N ≤ 4 * 5 := Nat.mul_le_mul (by omega) h5
      omega
  · rw [mem_reads_iff, hg]
    exact ⟨4, by decide, 4, by decide, Or.inr rfl⟩
  · intro hhash i hi
    exact substring_hexPair_of_isHexDigest hash i hhash (by have := h50 i hi; omega)

/-- C12 on the example digest with grid size 5. -/
theorem reads_in_range_iff_witness :
    (exampleDigest.length = 64 ∧ 1 ≤ 5 ∧ isHexDigest exampleDigest = true) ∧
    ((∀ i ∈ generateIdenticon.reads (constructor (MathObj.mk Real.pi Real.cos Real.sin
          (fun b a => Complex.arg ⟨a, b⟩) Real.sqrt) [] ⟨200, 200⟩ 5),
        i ≤ exampleDigest.length - 2) ↔ 5 ≤ 5) ∧
    ∃ c₁ c₂, substring exampleDigest 50 (50 + 2) = [c₁, c₂] ∧
      isRadixDigit 16 c₁ = true ∧ isRadixDigit 16 c₂ = true :=
  ⟨⟨by decide, by decide, by decide⟩,
    (reads_in_range_iff (MathObj.mk Real.pi Real.cos Real.sin
      (fun b a => Complex.arg ⟨a, b⟩) Real.sqrt) [] ⟨200, 200⟩ exampleDigest 5
      (by decide) (by decide)).1,
    (reads_in_range_iff (MathObj.mk Real.pi Real.cos Real.sin
      (fun b a => Complex.arg ⟨a, b⟩) Real.sqrt) [] ⟨200, 200⟩ exampleDigest 5
      (by decide) (by decide)).2.2.2.2 (by decide) 50
      (reads_in_range_iff (MathObj.mk Real.pi Real.cos Real.sin
        (fun b a => Complex.arg ⟨a, b⟩) Real.sqrt) [] ⟨200, 200⟩ exampleDigest 5
        (by decide) (by decide)).2.2.1⟩

/-- C13. For every string `hash` and every grid size, the object key of every
cell, so the one given to `drawCenterShape`, is 0 or 1; no cell of a run of
`generateIdenticon` gets a call of `drawDiamond` or of `drawOctagon`: the
cases 2 and 3 of the `switch` of `drawCenterShape` are never taken. -/
theorem no_diamond_no_octagon (Math : MathObj α) (self : Identicon α) (hash : JSString) :
    (∀ row col, generateIdenticon.objectKey self hash row col = 0 ∨
      generateIdenticon.objectKey self hash row col = 1) ∧
    (∀ row col (centerColor triangleColor effectTriangleColor : JSString),
      isCenter self row col = true →
      generateIdenticon.cell Math self hash centerColor triangleColor
          effectTriangleColor row col =
        drawCenterShape self (generateIdenticon.x self col) (generateIdenticon.y self row)
          centerColor (generateIdenticon.objectKey self hash row col)) ∧
    (∀ e ∈ generateIdenticon.cells Math self hash, ∀ call ∈ e.2,
      call.isDiamond = false ∧ call.isOctagon = false) := by
  have hkey : ∀ row col, generateIdenticon.objectKey self hash row col = 0 ∨
      generateIdenticon.objectKey self hash row col = 1 := fun row col =>
    getObjectFromHash_zero_or_one hash _
  refine ⟨hkey, ?_, ?_⟩
  · intro row col cc tc ec hcenter
    rw [cell_eq_values, if_pos hcenter]
  · rintro ⟨⟨row, col⟩, calls⟩ he call hcall
    rw [mem_cells_iff] at he
    obtain ⟨_, _, rfl⟩ := he
    rw [cell_eq_values] at hcall
    rcases hkey row col with h | h <;> rw [h] at hcall <;>
      by_cases hc : isCenter self row col = true <;>
      by_cases hl : inTriangleLimit self row col = true <;>
      simp [hc, hl, drawCenterShape] at hcall <;>
      subst hcall <;> exact ⟨rfl, rfl⟩

/-- C13 on the example digest with grid size 5: the record of the center cell
holds no diamond and no octagon. -/
theorem no_diamond_no_octagon_witness :
    (((2, 2), [DrawCall.drawSquare (2 * (200 / 5) + 200 / 5 / 2)
        (2 * (200 / 5) + 200 / 5 / 2) (200 / 5) (getColorFromHash exampleDigest 0)]) ∈
      generateIdenticon.cells (MathObj.mk Real.pi Real.cos Real.sin
          (fun b a => Complex.arg ⟨a, b⟩) Real.sqrt)
        (constructor (MathObj.mk Real.pi Real.cos Real.sin
          (fun b a => Complex.arg ⟨a, b⟩) Real.sqrt) [] ⟨200, 200⟩ 5) exampleDigest) ∧
    ∀ call ∈ ([DrawCall.drawSquare (2 * (200 / 5) + 200 / 5 / 2)
        (2 * (200 / 5) + 200 / 5 / 2) (200 / 5) (getColorFromHash exampleDigest 0)] :
        List (DrawCall ℝ)),
      call.isDiamond = false ∧ call.isOctagon = false :=
  have hmem : ((2, 2), [DrawCall.drawSquare (2 * (200 / 5) + 200 / 5 / 2)
        (2 * (200 / 5) + 200 / 5 / 2) (200 / 5) (getColorFromHash exampleDigest 0)]) ∈
      generateIdenticon.cells (MathObj.mk Real.pi Real.cos Real.sin
          (fun b a => Complex.arg ⟨a, b⟩) Real.sqrt)
        (constructor (MathObj.mk Real.pi Real.cos Real.sin
          (fun b a => Complex.arg ⟨a, b⟩) Real.sqrt) [] ⟨200, 200⟩ 5) exampleDigest := by
    have hk : getObjectFromHash exampleDigest 24 = 0 := by decide
    rw [mem_cells_iff]
    simp [generateIdenticon.cell, constructor, isCenter, drawCenterShape, hk]
  ⟨hmem, (no_diamond_no_octagon _ _ _).2.2 _ hmem⟩

end Identicon

/-! ## The colour key -/

namespace Identicon

open JS

variable {α : Type} [Field α]

/-- C14. What `generateIdenticon` does for a cell does not depend on the
cell's `colorKey` nor on the `color` computed from it. Take two digests that
give the cell the same object key, the first with colour key 0 and the second
with colour key 1, so that `color` is read at offset 0 for the first and at
offset 6 for the second: with the same grid, position, rotation and palette
colours the loop body makes the same calls for the cell, and when the two
digests have the same palette colours the two runs have the same record for
the cell. -/
theorem cell_independent_of_colorKey (Math : MathObj α) (self : Identicon α)
    (h₁ h₂ : JSString) (centerColor triangleColor effectTriangleColor : JSString)
    (row col : Nat)
    (hkey : generateIdenticon.objectKey self h₁ row col =
      generateIdenticon.objectKey self h₂ row col)
    (hc₁ : generateIdenticon.colorKey self h₁ row col = 0)
    (hc₂ : generateIdenticon.colorKey self h₂ row col = 1) :
    generateIdenticon.color self h₁ row col = getColorFromHash h₁ 0 ∧
    generateIdenticon.color self h₂ row col = getColorFromHash h₂ 6 ∧
    generateIdenticon.cell Math self h₁ centerColor triangleColor
        effectTriangleColor row col =
      generateIdenticon.cell Math self h₂ centerColor triangleColor
        effectTriangleColor row col ∧
    (getColorFromHash h₁ 0 = getColorFromHash h₂ 0 →
      getColorFromHash h₁ 6 = getColorFromHash h₂ 6 →
      getColorFromHash h₁ 12 = getColorFromHash h₂ 12 →
      ∀ calls, ((row, col), calls) ∈ generateIdenticon.cells Math self h₁ ↔
        ((row, col), calls) ∈ generateIdenticon.cells Math self h₂) := by
  have hcell : ∀ cc tc ec : JSString,
      generateIdenticon.cell Math self h₁ cc tc ec row col =
        generateIdenticon.cell Math self h₂ cc tc ec row col := by
    intro cc tc ec
    rw [cell_eq_values, cell_eq_values, hkey]
  refine ⟨?_, ?_, hcell _ _ _, ?_⟩
  · simp only [generateIdenticon.color, hc₁]
  · simp only [generateIdenticon.color, hc₂]
  · intro e0 e6 e12 calls
    rw [mem_cells_iff, mem_cells_iff, e0, e6, e12, hcell]

/-- C14 on the cell `(2, 3)` of a grid of size 5: the example digest gives
it the colour key 0, the altered digest the colour key 1, both the object key
1 and the same palette colours. -/
theorem cell_independent_of_colorKey_witness :
    (generateIdenticon.objectKey (constructor (MathObj.mk Real.pi Real.cos Real.sin
        (fun b a => Complex.arg ⟨a, b⟩) Real.sqrt) [] ⟨200, 200⟩ 5) exampleDigest 2 3 =
      generateIdenticon.objectKey (constructor (MathObj.mk Real.pi Real.cos Real.sin
        (fun b a => Complex.arg ⟨a, b⟩) Real.sqrt) [] ⟨200, 200⟩ 5) alteredDigest 2 3 ∧
    generateIdenticon.colorKey (constructor (MathObj.mk Real.pi Real.cos Real.sin
        (fun b a => Complex.arg ⟨a, b⟩) Real.sqrt) [] ⟨200, 200⟩ 5) exampleDigest 2 3 = 0 ∧
    generateIdenticon.colorKey (constructor (MathObj.mk Real.pi Real.cos Real.sin
        (fun b a => Complex.arg ⟨a, b⟩) Real.sqrt) [] ⟨200, 200⟩ 5) alteredDigest 2 3 = 1 ∧
    getColorFromHash exampleDigest 0 = getColorFromHash alteredDigest 0 ∧
    getColorFromHash exampleDigest 6 = getColorFromHash alteredDigest 6 ∧
    getColorFromHash exampleDigest 12 = getColorFromHash alteredDigest 12) ∧
    ∀ calls : List (DrawCall ℝ), ((2, 3), calls) ∈
        generateIdenticon.cells (MathObj.mk Real.pi Real.cos Real.sin
            (fun b a => Complex.arg ⟨a, b⟩) Real.sqrt)
          (constructor (MathObj.mk Real.pi Real.cos Real.sin
            (fun b a => Complex.arg ⟨a, b⟩) Real.sqrt) [] ⟨200, 200⟩ 5) exampleDigest ↔
      ((2, 3), calls) ∈
        generateIdenticon.cells (MathObj.mk Real.pi Real.cos Real.sin
            (fun b a => Complex.arg ⟨a, b⟩) Real.sqrt)
          (constructor (MathObj.mk Real.pi Real.cos Real.sin
            (fun b a => Complex.arg ⟨a, b⟩) Real.sqrt) [] ⟨200, 200⟩ 5) alteredDigest :=
  ⟨⟨by decide, by decide, by decide, by decide, by decide, by decide⟩,
    (cell_independent_of_colorKey (MathObj.mk Real.pi Real.cos Real.sin
        (fun b a => Complex.arg ⟨a, b⟩) Real.sqrt)
      (constructor (MathObj.mk Real.pi Real.cos Real.sin
        (fun b a => Complex.arg ⟨a, b⟩) Real.sqrt) [] ⟨200, 200⟩ 5)
      exampleDigest alteredDigest [] [] [] 2 3 (by decide) (by decide) (by decide)).2.2.2
      (by decide) (by decide) (by decide)⟩

/-- C15. For every digest and grid size `N`, a cell `(row, col)`, `col < N`,
with number `k = row * N + col` that is not the last one (`k + 1 < N * N`, so
that `row < N` too) has a next cell, of number `k + 1`, in the grid, and the `colorKey` computed for
the cell is the `objectKey` computed for any cell of number `k + 1`: both are
`getObjectFromHash(hash, 2k + 2)`. -/
theorem colorKey_eq_next_objectKey {β : Type} (self : Identicon β) (hash : JSString)
    (row col : Nat) (hcol : col < self.gridSize)
    (hlast : row * self.gridSize + col + 1 < self.gridSize * self.gridSize) :
    generateIdenticon.colorKey self hash row col =
      getObjectFromHash hash (2 * (row * self.gridSize + col) + 2) ∧
    (∀ row' col', row' * self.gridSize + col' = row * self.gridSize + col + 1 →
      generateIdenticon.objectKey self hash row' col' =
        getObjectFromHash hash (2 * (row * self.gridSize + col) + 2) ∧
      generateIdenticon.colorKey self hash row col =
        generateIdenticon.objectKey self hash row' col') ∧
    (∃ row' col', row' < self.gridSize ∧ col' < self.gridSize ∧
      row' * self.gridSize + col' = row * self.gridSize + col + 1) := by
  have hN : 0 < self.gridSize := by omega
  have hc : generateIdenticon.colorKey self hash row col =
      getObjectFromHash hash (2 * (row * self.gridSize + col) + 2) := by
    simp only [generateIdenticon.colorKey, generateIdenticon.colorIndex]
    congr 1
    omega
  refine ⟨hc, ?_, ?_⟩
  · intro row' col' hnext
    have ho : generateIdenticon.objectKey self hash row' col' =
        getObjectFromHash hash (2 * (row * self.gridSize + col) + 2) := by
      simp only [generateIdenticon.objectKey, generateIdenticon.objectIndex, hnext]
      congr 1
      omega
    exact ⟨ho, hc.trans ho.symm⟩
  · refine ⟨(row * self.gridSize + col + 1) / self.gridSize,
      (row * self.gridSize + col + 1) % self.gridSize, ?_, Nat.mod_lt _ hN, ?_⟩
    · exact Nat.div_lt_of_lt_mul hlast
    · exact Nat.div_add_mod' _ _

/-- C15 on the example digest with grid size 5: the colour key of the cell
`(0, 4)` is the object key of the cell `(1, 0)`. -/
theorem colorKey_eq_next_objectKey_witness :
    (4 < 5 ∧ 0 * 5 + 4 + 1 < 5 * 5 ∧ 1 * 5 + 0 = 0 * 5 + 4 + 1) ∧
    generateIdenticon.colorKey (constructor (MathObj.mk Real.pi Real.cos Real.sin
        (fun b a => Complex.arg ⟨a, b⟩) Real.sqrt) [] ⟨200, 200⟩ 5) exampleDigest 0 4 =
      generateIdenticon.objectKey (constructor (MathObj.mk Real.pi Real.cos Real.sin
        (fun b a => Complex.arg ⟨a, b⟩) Real.sqrt) [] ⟨200, 200⟩ 5) exampleDigest 1 0 :=
  ⟨⟨by decide, by decide, by decide⟩,
    ((colorKey_eq_next_objectKey (constructor (MathObj.mk Real.pi Real.cos Real.sin
        (fun b a => Complex.arg ⟨a, b⟩) Real.sqrt) [] ⟨200, 200⟩ 5) exampleDigest 0 4
      (by decide) (by decide)).2.1 1 0 (by decide)).2⟩

end Identicon

/-! ## Reads past the end of the digest -/

namespace Identicon

open JS

variable {α : Type} [Field α]

/-- C16. For every string `hash` and every offset `i ≥ length(hash)`, the
substring read is empty, `parseInt` of it is `NaN` and
`getObjectFromHash(hash, i)` is 0; so, for any grid size, a cell of the grid
that is not the center cell and whose object-key offset is at or past the end
of the digest gets no shape call in the run of `generateIdenticon`. -/
theorem past_end_cell_empty (hash : JSString) (i : Nat) (hi : hash.length ≤ i) :
    substring hash i (i + 2) = [] ∧
    parseInt [] 16 = none ∧
    getObjectFromHash hash i = 0 ∧
    (∀ (Math : MathObj α) (input : JSString) (canvas : Canvas α) (N row col : Nat),
      row < N → col < N →
      isCenter (constructor Math input canvas N) row col = false →
      generateIdenticon.objectIndex (constructor Math input canvas N) row col = i →
      ∀ calls, ((row, col), calls) ∈
          generateIdenticon.cells Math (constructor Math input canvas N) hash ↔
        calls = []) := by
  refine ⟨substring_past_end hash i (i + 2) hi (by omega), rfl,
    getObjectFromHash_past_end hash i hi, ?_⟩
  intro Math input canvas N row col hrow hcol hcenter hidx calls
  have hN : (constructor Math input canvas N).gridSize = N := rfl
  have hkey : generateIdenticon.objectKey (constructor Math input canvas N) hash row col
      = 0 := by
    rw [generateIdenticon.objectKey, hidx]
    exact getObjectFromHash_past_end hash i hi
  rw [mem_cells_iff, cell_eq_values, hkey, hcenter, hN]
  simp [hrow, hcol]

/-- C16 on the example digest with grid size 8: the cell `(5, 0)` is read at
offset 80 and gets no shape call. -/
theorem past_end_cell_empty_witness :
    (exampleDigest.length ≤ 80 ∧ 5 < 8 ∧ 0 < 8 ∧
      isCenter (constructor (MathObj.mk Real.pi Real.cos Real.sin
        (fun b a => Complex.arg ⟨a, b⟩) Real.sqrt) [] ⟨200, 200⟩ 8) 5 0 = false ∧
      generateIdenticon.objectIndex (constructor (MathObj.mk Real.pi Real.cos Real.sin
        (fun b a => Complex.arg ⟨a, b⟩) Real.sqrt) [] ⟨200, 200⟩ 8) 5 0 = 80) ∧
    getObjectFromHash exampleDigest 80 = 0 ∧
    ∀ calls : List (DrawCall ℝ), ((5, 0), calls) ∈
        generateIdenticon.cells (MathObj.mk Real.pi Real.cos Real.sin
            (fun b a => Complex.arg ⟨a, b⟩) Real.sqrt)
          (constructor (MathObj.mk Real.pi Real.cos Real.sin
            (fun b a => Complex.arg ⟨a, b⟩) Real.sqrt) [] ⟨200, 200⟩ 8) exampleDigest ↔
      calls = [] :=
  ⟨⟨by decide, by decide, by decide, by rfl, by rfl⟩,
    (@past_end_cell_empty ℝ _ exampleDigest 80 (by decide)).2.2.1,
    (past_end_cell_empty exampleDigest 80 (by decide)).2.2.2
      (MathObj.mk Real.pi Real.cos Real.sin (fun b a => Complex.arg ⟨a, b⟩) Real.sqrt)
      [] ⟨200, 200⟩ 8 5 0 (by decide) (by decide) (by rfl) (by rfl)⟩

end Identicon

/-! ## The center cell and the center of the canvas -/

namespace Identicon

open JS

/-- C17. In exact arithmetic (an ordered field, the rationals among them),
on a square canvas of width and height `W > 0` with a grid size `N ≥ 1`, and
with `S = W / N`: when `N` is odd the pixel centre
`(⌊N/2⌋ * S + S/2, ⌊N/2⌋ * S + S/2)` of the center cell is the centre
`(W/2, W/2)` of the canvas, so both arguments of `atan2` for that cell are 0;
when `N` is even the pixel centre of the center cell is the centre of the
canvas plus `S/2 > 0` in each coordinate. -/
theorem center_cell_pixel_centre {α : Type} [LinearOrderedField α] (Math : MathObj α)
    (input : JSString) (W : α) (N : Nat) (hW : 0 < W) (hN : 1 ≤ N) :
    (constructor Math input ⟨W, W⟩ N).cellSize = W / (N : α) ∧
    (constructor Math input ⟨W, W⟩ N).canvasCenterX = W / 2 ∧
    (constructor Math input ⟨W, W⟩ N).canvasCenterY = W / 2 ∧
    isCenter (constructor Math input ⟨W, W⟩ N) (N / 2) (N / 2) = true ∧
    (N % 2 = 1 →
      generateIdenticon.x (constructor Math input ⟨W, W⟩ N) (N / 2) = W / 2 ∧
      generateIdenticon.y (constructor Math input ⟨W, W⟩ N) (N / 2) = W / 2 ∧
      generateIdenticon.atan2Args (constructor Math input ⟨W, W⟩ N) (N / 2) (N / 2) =
        (0, 0)) ∧
    (N % 2 = 0 →
      generateIdenticon.x (constructor Math input ⟨W, W⟩ N) (N / 2) =
        W / 2 + W / (N : α) / 2 ∧
      generateIdenticon.y (constructor Math input ⟨W, W⟩ N) (N / 2) =
        W / 2 + W / (N : α) / 2 ∧
      0 < W / (N : α) / 2) := by
  have hNpos : (0 : α) < (N : α) := by exact_mod_cast hN
  have hNne : (N : α) ≠ 0 := ne_of_gt hNpos
  have hodd : N % 2 = 1 → ((N / 2 : ℕ) : α) * (W / (N : α)) + W / (N : α) / 2 = W / 2 := by
    intro h
    have hN2 : N = 2 * (N / 2) + 1 := by omega
    have hcast : (N : α) = 2 * ((N / 2 : ℕ) : α) + 1 := by exact_mod_cast hN2
    field_simp
    rw [hcast]
    ring
  have heven : N % 2 = 0 →
      ((N / 2 : ℕ) : α) * (W / (N : α)) + W / (N : α) / 2 = W / 2 + W / (N : α) / 2 := by
    intro h
    have hN2 : N = 2 * (N / 2) := by omega
    have hcast : (N : α) = 2 * ((N / 2 : ℕ) : α) := by exact_mod_cast hN2
    have hhalf : ((N / 2 : ℕ) : α) = (N : α) / 2 := by rw [hcast]; ring
    rw [hhalf]
    field_simp
    ring
  refine ⟨rfl, rfl, rfl, by simp [isCenter, constructor], ?_, ?_⟩
  · intro h
    have hx := hodd h
    refine ⟨hx, hx, ?_⟩
    simp only [generateIdenticon.atan2Args, generateIdenticon.x, generateIdenticon.y,
      constructor, hx, sub_self]
  · intro h
    exact ⟨heven h, heven h, by positivity⟩

/-- C17 on a canvas of 200 by 200 with grid size 5. -/
theorem center_cell_pixel_centre_witness :
    ((0 : ℝ) < 200 ∧ 1 ≤ 5 ∧ 5 % 2 = 1) ∧
    generateIdenticon.atan2Args (constructor (MathObj.mk Real.pi Real.cos Real.sin
      (fun b a => Complex.arg ⟨a, b⟩) Real.sqrt) [] ⟨200, 200⟩ 5) (5 / 2) (5 / 2) =
      (0, 0) :=
  ⟨⟨by norm_num, by decide, by decide⟩,
    ((center_cell_pixel_centre (MathObj.mk Real.pi Real.cos Real.sin
      (fun b a => Complex.arg ⟨a, b⟩) Real.sqrt) [] 200 5 (by norm_num)
      (by decide)).2.2.2.2.1 (by decide)).2.2⟩

end Identicon
